import Mathlib

/-!
# sns-server: domain model validation and the request dispatcher

A shallow embedding of `apps/server/internal/models/{user,post,like,follow}.go` and of
`apps/server/internal/server/server.go`, followed by the properties proved about them.

Conventions of the embedding

* A Go `string` is a Lean `String`, a sequence of Unicode code points: text is taken to be valid
  UTF-8, which is what `encoding/json` hands to the server.  `len([]rune(s))` is `s.length`;
  byte-level operations (`len(s)`, `s[i:j]`, `s[1:]`) act on `bytes s`, the UTF-8 encoding.
* Go `uint` values are natural numbers; `error` results are `Except String Unit`, with
  `Except.ok ()` standing for `nil`.
* `time.Time` is an abstract instant (`Nat`), `0` being the zero time.
* The relational store reached through GORM is an explicit state (`Store`) passed through the
  handlers and read by the derived queries (`LikeCount`, `FollowerCount`, ...).
-/

set_option autoImplicit false

namespace SnsServer

/-! ## Go strings -/

/-- UTF-8 bytes of a Go string. -/
def bytes (s : String) : List UInt8 := s.toUTF8.data.toList

/-- Go `unicode.IsSpace`: the Latin-1 cases listed in the library, then the `White_Space`
table for the other code points. -/
def isSpace (c : Char) : Bool :=
  let r := c.toNat
  if r ≤ 0xFF then
    r == 0x09 || r == 0x0A || r == 0x0B || r == 0x0C || r == 0x0D || r == 0x20 ||
      r == 0x85 || r == 0xA0
  else
    r == 0x1680 || (0x2000 ≤ r && r ≤ 0x200A) || r == 0x2028 || r == 0x2029 ||
      r == 0x202F || r == 0x205F || r == 0x3000

/-- Go `strings.TrimSpace`: the string without its leading and trailing white space. -/
def TrimSpace (s : String) : String :=
  ⟨((s.data.dropWhile isSpace).reverse.dropWhile isSpace).reverse⟩

/-- Go `len([]rune(s))`: the number of code points of `s`. -/
def runeCount (s : String) : Nat := s.length

/-! ## Domain model (`internal/models`) -/

/-- An instant of `time.Time`; `0` is the zero time. -/
abbrev Time := Nat

/-- Record `models.User`.  The relation slices `Posts`, `Likes`, `Following` and `Followers`
are never loaded by the code under study; they stay `nil` and are left out of the record. -/
structure User where
  ID : Nat := 0
  Username : String := ""
  Email : String := ""
  Password : String := ""
  Name : String := ""
  Bio : String := ""
  Avatar : String := ""
  CreatedAt : Time := 0
  UpdatedAt : Time := 0
  DeletedAt : Option Time := none
  deriving DecidableEq, Repr

/-- Record `models.Post`.  `Author` is the relation filled by `Preload("Author")`; `Parent`,
`Replies` and `Likes` are never loaded and are left out. -/
structure Post where
  ID : Nat := 0
  Content : String := ""
  AuthorID : Nat := 0
  ParentID : Option Nat := none
  CreatedAt : Time := 0
  UpdatedAt : Time := 0
  DeletedAt : Option Time := none
  Author : User := {}
  deriving DecidableEq, Repr

/-- Record `models.Like`, with its two relations `User` and `Post`. -/
structure Like where
  ID : Nat := 0
  UserID : Nat := 0
  PostID : Nat := 0
  CreatedAt : Time := 0
  User : User := {}
  Post : Post := {}
  deriving DecidableEq, Repr

/-- Record `models.Follow`, with its two relations `Follower` and `Followee`. -/
structure Follow where
  ID : Nat := 0
  FollowerID : Nat := 0
  FolloweeID : Nat := 0
  CreatedAt : Time := 0
  Follower : User := {}
  Followee : User := {}
  deriving DecidableEq, Repr

/-- Hook `(*User).BeforeCreate` of `user.go`. -/
def User.BeforeCreate (u : User) : Except String Unit :=
  if u.Username = "" then
    .error "username is required"
  else if u.Email = "" then
    .error "email is required"
  else if u.Name = "" then
    .error "name is required"
  else
    .ok ()

/-- Hook `(*Post).BeforeCreate` of `post.go`. -/
def Post.BeforeCreate (p : Post) : Except String Unit :=
  if TrimSpace p.Content = "" then
    .error "content cannot be empty"
  else if runeCount p.Content > 280 then
    .error "content exceeds 280 characters"
  else if p.AuthorID = 0 then
    .error "author ID is required"
  else
    .ok ()

/-- Hook `(*Like).BeforeCreate` of `like.go`. -/
def Like.BeforeCreate (l : Like) : Except String Unit :=
  if l.UserID = 0 then
    .error "ユーザーIDは必須です"
  else if l.PostID = 0 then
    .error "投稿IDは必須です"
  else
    .ok ()

/-- Method `(*Follow).IsValid` of `follow.go`. -/
def Follow.IsValid (f : Follow) : Bool :=
  f.FollowerID != f.FolloweeID

/-- Hook `(*Follow).BeforeCreate` of `follow.go`. -/
def Follow.BeforeCreate (f : Follow) : Except String Unit :=
  if f.FollowerID = 0 then
    .error "follower ID is required"
  else if f.FolloweeID = 0 then
    .error "followee ID is required"
  else if !f.IsValid then
    .error "cannot follow yourself"
  else
    .ok ()

/-! ## Request and response values (`internal/server`) -/

/-- A Go `float64`: a finite value `± mant * 2 ^ exp`, an infinity or a NaN. -/
inductive Float64 where
  | finite (neg : Bool) (mant : Nat) (exp : Int)
  | inf (neg : Bool)
  | nan

/-- A Go `interface{}` value as the handlers inspect it: the dynamic types they assert
(`string`, `float64`, `int`, `map[string]interface{}`) and everything else. -/
inductive Value where
  | str (s : String)
  | float64 (f : Float64)
  | int (i : Int)
  | map (m : String → Option Value)
  | other

/-- A Go `map[string]interface{}`; the `nil` map has no key. -/
abbrev Vars := String → Option Value

/-- What a request sees of the outside world: the instant given by `time.Now()`, whether the
database answers, and the platform's result for a `float64` that `uint` cannot represent. -/
structure Env where
  now : Time := 0
  dbUp : Bool := true
  uintOutOfRange : Float64 → Nat := fun _ => 0

/-- The integer part of a `float64` (truncation towards zero); none for infinities and NaN. -/
def Float64.trunc : Float64 → Option Int
  | .finite neg mant exp =>
    let mag : Nat := if 0 ≤ exp then mant * 2 ^ exp.toNat else mant / 2 ^ (-exp).toNat
    some (if neg then -(mag : Int) else (mag : Int))
  | .inf _ => none
  | .nan => none

/-- Go conversion `uint(num)` of a `float64`. -/
def uintOfFloat64 (env : Env) (f : Float64) : Nat :=
  match f.trunc with
  | some t => if 0 ≤ t ∧ t < 2 ^ 64 then t.toNat else env.uintOutOfRange f % 2 ^ 64
  | none => env.uintOutOfRange f % 2 ^ 64

/-- Go conversion `uint(num)` of an `int`: the value modulo `2 ^ 64`. -/
def uintOfInt (i : Int) : Nat := (i % 2 ^ 64).toNat

/-- Go conversion `int(n)` of a `uint`: the two's complement reading of the 64 bits. -/
def intOfUint (n : Nat) : Int :=
  if n % 2 ^ 64 < 2 ^ 63 then ((n % 2 ^ 64 : Nat) : Int) else ((n % 2 ^ 64 : Nat) : Int) - 2 ^ 64

/-- Go `strconv.Itoa`. -/
def Itoa (i : Int) : String := toString i

/-- Function `getString` of `server.go`. -/
def getString (m : Vars) (key : String) : String :=
  match m key with
  | some (.str str) => str
  | _ => ""

/-- Function `getUint` of `server.go`. -/
def getUint (env : Env) (m : Vars) (key : String) : Nat :=
  match m key with
  | some (.float64 num) => uintOfFloat64 env num
  | some (.int num) => uintOfInt num
  | _ => 0

/-- Function `contains` of `server.go`, on the bytes of its two arguments.  `s[1:]` is the
tail of `s`; the call on it is guarded by `len(s) > len(substr)`, so `s` is not empty there. -/
def contains (s substr : List UInt8) : Bool :=
  decide (s.length ≥ substr.length) && (s == substr ||
    (decide (s.length > substr.length) && (s.take substr.length == substr ||
      match s with
      | [] => false
      | _ :: rest => contains rest substr)))

/-- Record `GraphQLError`. -/
structure GraphQLError where
  Message : String
  deriving DecidableEq, Repr

/-- The values the handlers put under the key of `dataResponse`. -/
inductive Payload where
  | users (users : List User)
  | register (token : String) (user : User)
  | post (post : Post)
  | posts (posts : List Post)
  | like (like : Like)
  | bool (b : Bool)
  deriving DecidableEq, Repr

/-- Record `GraphQLResponse`: `Data` is `nil` or the one-entry map built by `dataResponse`;
`Errors` is `nil` (the empty list) or the list of errors. -/
structure GraphQLResponse where
  Data : Option (String × Payload) := none
  Errors : List GraphQLError := []
  deriving DecidableEq, Repr

/-- Function `errorResponse` of `server.go`. -/
def errorResponse (message : String) : GraphQLResponse :=
  { Errors := [{ Message := message }] }

/-- Function `dataResponse` of `server.go`. -/
def dataResponse (key : String) (data : Payload) : GraphQLResponse :=
  { Data := some (key, data) }

/-! ## The relational store

The store is the PostgreSQL database that `Server.DB` reaches through GORM, with the tables
that `AutoMigrate` derives from the four records.  Rows are kept in insertion order.  Ids come
from one sequence per table, which is ahead of the ids already stored, so that the primary key of
a new row is never in use; a sequence value taken by an insert that a unique index then rejects
is not given back.  Users and posts carry a soft-delete mark which every query of these
two tables filters on; likes and follows are deleted physically.  The foreign keys are not
represented: every insert made by the handlers refers to a row that was just read or written.
Limits of the column types (text that the database cannot store) are outside the model, and a
request sees the database either answering throughout or failing throughout (`Env.dbUp`).
-/

/-- State of the database: the four tables and the next value of their id sequences. -/
structure Store where
  users : List User := []
  posts : List Post := []
  likes : List Like := []
  follows : List Follow := []
  nextUserID : Nat := 1
  nextPostID : Nat := 1
  nextLikeID : Nat := 1
  nextFollowID : Nat := 1
  deriving DecidableEq, Repr

/-- A freshly migrated database: no row, every sequence at 1. -/
def Store.empty : Store := {}

/-- Errors that a GORM call reports. -/
inductive DBError where
  | recordNotFound
  | connection
  | uniqueViolation (index : String)
  | hook (msg : String)
  deriving DecidableEq, Repr

/-- Method `Error()` of the error: the text that `%v` prints. -/
def DBError.Error : DBError → String
  | .recordNotFound => "record not found"
  | .connection => "failed to connect to database"
  | .uniqueViolation index =>
    "ERROR: duplicate key value violates unique constraint " ++ index ++ " (SQLSTATE 23505)"
  | .hook msg => msg

/-- Rows of `users` that are not soft-deleted: `DB.Find(&users)`. -/
def Store.findUsers (s : Store) (env : Env) : Except DBError (List User) :=
  if env.dbUp then .ok (s.users.filter (fun u => u.DeletedAt.isNone)) else .error .connection

/-- The user with the given id that is not soft-deleted: `DB.First(&user, id)`. -/
def Store.firstUser (s : Store) (env : Env) (id : Nat) : Except DBError User :=
  if env.dbUp then
    match s.users.find? (fun u => u.ID == id && u.DeletedAt.isNone) with
    | some u => .ok u
    | none => .error .recordNotFound
  else .error .connection

/-- A row of `posts` as a query scans it into a record: `Author` is a relation, not a column, and
is empty until a preload fills it. -/
def Post.scanned (p : Post) : Post := { p with Author := {} }

/-- A row of `likes` as a query scans it into a record: `User` and `Post` are relations, not
columns, and are empty until a preload fills them. -/
def Like.scanned (l : Like) : Like := { l with User := {}, Post := {} }

/-- The post with the given id that is not soft-deleted: `DB.First(&post, id)`. -/
def Store.firstPost (s : Store) (env : Env) (id : Nat) : Except DBError Post :=
  if env.dbUp then
    match s.posts.find? (fun p => p.ID == id && p.DeletedAt.isNone) with
    | some p => .ok p.scanned
    | none => .error .recordNotFound
  else .error .connection

/-- The like with the given id: `DB.First(&like, id)`. -/
def Store.firstLike (s : Store) (env : Env) (id : Nat) : Except DBError Like :=
  if env.dbUp then
    match s.likes.find? (fun l => l.ID == id) with
    | some l => .ok l.scanned
    | none => .error .recordNotFound
  else .error .connection

/-- Clause `Preload("Author")` on a post: the author is loaded when a user with the post's
author id exists and is not soft-deleted. -/
def Store.preloadAuthor (s : Store) (p : Post) : Post :=
  match s.users.find? (fun u => u.ID == p.AuthorID && u.DeletedAt.isNone) with
  | some u => { p with Author := u }
  | none => p

/-- Clauses `Preload("User").Preload("Post")` on a like. -/
def Store.preloadUserPost (s : Store) (l : Like) : Like :=
  let l1 : Like :=
    match s.users.find? (fun u => u.ID == l.UserID && u.DeletedAt.isNone) with
    | some u => { l with User := u }
    | none => l
  match s.posts.find? (fun p => p.ID == l.PostID && p.DeletedAt.isNone) with
  | some p => { l1 with Post := p.scanned }
  | none => l1

/-- Call `DB.Create(&user)`: the hook, then the insert under the unique indexes on `username`
and `email`.  Returns the record as GORM leaves it (id and timestamps set). -/
def Store.createUser (s : Store) (env : Env) (u : User) : Except DBError User × Store :=
  if env.dbUp then
    match u.BeforeCreate with
    | .error msg => (.error (.hook msg), s)
    | .ok () =>
      if s.users.any (fun r => r.Username == u.Username) then
        (.error (.uniqueViolation "idx_users_username"),
          { s with nextUserID := s.nextUserID + 1 })
      else if s.users.any (fun r => r.Email == u.Email) then
        (.error (.uniqueViolation "idx_users_email"),
          { s with nextUserID := s.nextUserID + 1 })
      else
        let row : User :=
          { u with ID := s.nextUserID, CreatedAt := env.now, UpdatedAt := env.now }
        (.ok row, { s with users := s.users ++ [row], nextUserID := s.nextUserID + 1 })
  else (.error .connection, s)

/-- Call `DB.Create(&post)`: the hook, then the insert. -/
def Store.createPost (s : Store) (env : Env) (p : Post) : Except DBError Post × Store :=
  if env.dbUp then
    match p.BeforeCreate with
    | .error msg => (.error (.hook msg), s)
    | .ok () =>
      let row : Post :=
        { p with ID := s.nextPostID, CreatedAt := env.now, UpdatedAt := env.now }
      (.ok row,
        { s with posts := s.posts ++ [{ row with Author := {} }],
                 nextPostID := s.nextPostID + 1 })
  else (.error .connection, s)

/-- Call `DB.Create(&like)`: the hook, then the insert under the unique index on
`(user_id, post_id)`. -/
def Store.createLike (s : Store) (env : Env) (l : Like) : Except DBError Like × Store :=
  if env.dbUp then
    match l.BeforeCreate with
    | .error msg => (.error (.hook msg), s)
    | .ok () =>
      if s.likes.any (fun r => r.UserID == l.UserID && r.PostID == l.PostID) then
        (.error (.uniqueViolation "idx_user_post"),
          { s with nextLikeID := s.nextLikeID + 1 })
      else
        let row : Like := { l with ID := s.nextLikeID, CreatedAt := env.now }
        (.ok row,
          { s with likes := s.likes ++ [{ row with User := {}, Post := {} }],
                   nextLikeID := s.nextLikeID + 1 })
  else (.error .connection, s)

/-- Call `DB.Where("user_id = ? AND post_id = ?", userID, postID).Delete(&models.Like{})`:
the number of rows removed and the new state. -/
def Store.deleteLikes (s : Store) (env : Env) (userID postID : Nat) :
    Except DBError Nat × Store :=
  if env.dbUp then
    (.ok (s.likes.countP (fun l => l.UserID == userID && l.PostID == postID)),
      { s with likes := s.likes.filter (fun l => !(l.UserID == userID && l.PostID == postID)) })
  else (.error .connection, s)

/-- Query `DB.Preload("Author").Order("created_at DESC").Find(&posts)`: the posts that are not
soft-deleted, newest first (posts of the same instant in table order), each scanned into a fresh
record and then given its author by the preload. -/
def Store.findPostsNewestFirst (s : Store) (env : Env) : Except DBError (List Post) :=
  if env.dbUp then
    .ok (((s.posts.filter (fun p => p.DeletedAt.isNone)).insertionSort
      (fun a b => a.CreatedAt ≥ b.CreatedAt)).map fun p => s.preloadAuthor p.scanned)
  else .error .connection

/-! ## Handlers of `server.go` -/

/-- Constant `defaultUserID`. -/
def defaultUserID : Nat := 1

/-- Method `(*Server).ensureDefaultUser`. -/
def ensureDefaultUser (s : Store) (env : Env) : Except String User × Store :=
  match s.firstUser env defaultUserID with
  | .ok user => (.ok user, s)
  | .error _ =>
    match s.createUser env
      { Username := "default_user", Email := "default@example.com", Password := "password",
        Name := "Default User" } with
    | (.ok user, s1) => (.ok user, s1)
    | (.error createErr, s1) =>
      (.error ("デフォルトユーザーの作成に失敗: " ++ createErr.Error), s1)

/-- Method `(*Server).handleUsersQuery`. -/
def handleUsersQuery (s : Store) (env : Env) : GraphQLResponse × Store :=
  match s.findUsers env with
  | .error err => (errorResponse ("Database error: " ++ err.Error), s)
  | .ok users => (dataResponse "users" (.users users), s)

/-- Method `(*Server).handleRegisterMutation`. -/
def handleRegisterMutation (s : Store) (env : Env) (vars : Vars) :
    GraphQLResponse × Store :=
  match vars "input" with
  | some (.map input) =>
    let user : User :=
      { Username := getString input "username"
        Email := getString input "email"
        Password := getString input "password"
        Name := getString input "name"
        Bio := getString input "bio" }
    match s.createUser env user with
    | (.error err, s1) => (errorResponse ("Failed to create user: " ++ err.Error), s1)
    | (.ok user, s1) =>
      (dataResponse "register"
        (.register ("temp_token_" ++ Itoa (intOfUint user.ID)) user), s1)
  | _ => (errorResponse "Invalid input format", s)

/-- Method `(*Server).handleCreatePostMutation`.  The result of the final
`Preload("Author").First(&post, post.ID)` is not inspected by the source: when it fails the
post stays as `Create` left it. -/
def handleCreatePostMutation (s : Store) (env : Env) (vars : Vars) :
    GraphQLResponse × Store :=
  match vars "input" with
  | some (.map input) =>
    let content := getString input "content"
    if content = "" then
      (errorResponse "Content is required", s)
    else
      match ensureDefaultUser s env with
      | (.error err, s1) => (errorResponse err, s1)
      | (.ok user, s1) =>
        let post : Post := { Content := content, AuthorID := user.ID }
        match s1.createPost env post with
        | (.error err, s2) => (errorResponse ("Failed to create post: " ++ err.Error), s2)
        | (.ok post, s2) =>
          let post :=
            match s2.firstPost env post.ID with
            | .ok found => s2.preloadAuthor found
            | .error _ => post
          (dataResponse "createPost" (.post post), s2)
  | _ => (errorResponse "Invalid input format - variables required", s)

/-- Method `(*Server).handlePostsQuery`. -/
def handlePostsQuery (s : Store) (env : Env) : GraphQLResponse × Store :=
  match s.findPostsNewestFirst env with
  | .error err => (errorResponse ("Database error: " ++ err.Error), s)
  | .ok posts => (dataResponse "posts" (.posts posts), s)

/-- Method `(*Server).handleLikePostMutation`. -/
def handleLikePostMutation (s : Store) (env : Env) (vars : Vars) :
    GraphQLResponse × Store :=
  match vars "input" with
  | some (.map input) =>
    let postID := getUint env input "postId"
    if postID = 0 then
      (errorResponse "Post ID is required", s)
    else
      match ensureDefaultUser s env with
      | (.error err, s1) => (errorResponse err, s1)
      | (.ok user, s1) =>
        match s1.firstPost env postID with
        | .error _ => (errorResponse "Post not found", s1)
        | .ok _ =>
          let like : Like := { UserID := user.ID, PostID := postID }
          match s1.createLike env like with
          | (.error err, s2) => (errorResponse ("Failed to like post: " ++ err.Error), s2)
          | (.ok like, s2) =>
            let like :=
              match s2.firstLike env like.ID with
              | .ok found => s2.preloadUserPost found
              | .error _ => like
            (dataResponse "likePost" (.like like), s2)
  | _ => (errorResponse "Invalid input format", s)

/-- Method `(*Server).handleUnlikePostMutation`. -/
def handleUnlikePostMutation (s : Store) (env : Env) (vars : Vars) :
    GraphQLResponse × Store :=
  match vars "input" with
  | some (.map input) =>
    let postID := getUint env input "postId"
    if postID = 0 then
      (errorResponse "Post ID is required", s)
    else
      match ensureDefaultUser s env with
      | (.error err, s1) => (errorResponse err, s1)
      | (.ok user, s1) =>
        match s1.deleteLikes env user.ID postID with
        | (.error err, s2) => (errorResponse ("Failed to unlike post: " ++ err.Error), s2)
        | (.ok rowsAffected, s2) =>
          if rowsAffected = 0 then
            (errorResponse "Like not found", s2)
          else
            (dataResponse "unlikePost" (.bool true), s2)
  | _ => (errorResponse "Invalid input format", s)

/-- The calls that `executeQuery` can make, and its own last `return`. -/
structure Handlers (ρ : Type) where
  handleUsersQuery : ρ
  handleRegisterMutation : Vars → ρ
  handleCreatePostMutation : Vars → ρ
  handlePostsQuery : ρ
  handleUnlikePostMutation : Vars → ρ
  handleLikePostMutation : Vars → ρ
  notImplemented : ρ

/-- Body of `(*Server).executeQuery`: the chain of marker tests, with the calls it makes taken
from `h`. -/
def executeQueryWith {ρ : Type} (h : Handlers ρ) (query : String) (vars : Vars) : ρ :=
  if contains (bytes query) (bytes "users") && !contains (bytes query) (bytes "mutation") then
    h.handleUsersQuery
  else if contains (bytes query) (bytes "register")
      && contains (bytes query) (bytes "mutation") then
    h.handleRegisterMutation vars
  else if contains (bytes query) (bytes "createPost")
      && contains (bytes query) (bytes "mutation") then
    h.handleCreatePostMutation vars
  else if contains (bytes query) (bytes "posts")
      && !contains (bytes query) (bytes "mutation") then
    h.handlePostsQuery
  else if contains (bytes query) (bytes "unlikePost")
      && contains (bytes query) (bytes "mutation") then
    h.handleUnlikePostMutation vars
  else if contains (bytes query) (bytes "likePost")
      && contains (bytes query) (bytes "mutation") then
    h.handleLikePostMutation vars
  else
    h.notImplemented

/-- The methods of the server on the store `s`. -/
def serverHandlers (s : Store) (env : Env) : Handlers (GraphQLResponse × Store) where
  handleUsersQuery := handleUsersQuery s env
  handleRegisterMutation := handleRegisterMutation s env
  handleCreatePostMutation := handleCreatePostMutation s env
  handlePostsQuery := handlePostsQuery s env
  handleUnlikePostMutation := handleUnlikePostMutation s env
  handleLikePostMutation := handleLikePostMutation s env
  notImplemented := ({ Errors := [{ Message := "Query not implemented" }] }, s)

/-- Method `(*Server).executeQuery`: the response and the state of the store after it. -/
def executeQuery (s : Store) (env : Env) (query : String) (vars : Vars) :
    GraphQLResponse × Store :=
  executeQueryWith (serverHandlers s env) query vars

/-- Names of the seven ways out of `executeQuery`. -/
inductive Route where
  | users
  | register
  | createPost
  | posts
  | unlikePost
  | likePost
  | notImplemented
  deriving DecidableEq, Repr

/-- Handlers that only report their own name. -/
def routeTags : Handlers Route where
  handleUsersQuery := .users
  handleRegisterMutation := fun _ => .register
  handleCreatePostMutation := fun _ => .createPost
  handlePostsQuery := .posts
  handleUnlikePostMutation := fun _ => .unlikePost
  handleLikePostMutation := fun _ => .likePost
  notImplemented := .notImplemented

/-- The way `executeQuery` leaves on a selector: its body run on `routeTags`. -/
def route (query : String) : Route :=
  executeQueryWith routeTags query (fun _ => none)

/-- The call of `h` that a route names. -/
def Handlers.call {ρ : Type} (h : Handlers ρ) (r : Route) (vars : Vars) : ρ :=
  match r with
  | .users => h.handleUsersQuery
  | .register => h.handleRegisterMutation vars
  | .createPost => h.handleCreatePostMutation vars
  | .posts => h.handlePostsQuery
  | .unlikePost => h.handleUnlikePostMutation vars
  | .likePost => h.handleLikePostMutation vars
  | .notImplemented => h.notImplemented

/-- The routing table as the specification words it: the six operations in the documented
check order, each with its marker condition on the selector. -/
def markerOrder (query : String) : List (Route × Bool) :=
  let has : String → Bool := fun marker => contains (bytes query) (bytes marker)
  [ (.users, has "users" && !has "mutation"),
    (.register, has "register" && has "mutation"),
    (.createPost, has "createPost" && has "mutation"),
    (.posts, has "posts" && !has "mutation"),
    (.unlikePost, has "unlikePost" && has "mutation"),
    (.likePost, has "likePost" && has "mutation") ]

/-- First match wins: the first operation of the table whose condition holds, if any. -/
def firstMatch (table : List (Route × Bool)) : Option Route :=
  (table.find? (fun entry => entry.2)).map (fun entry => entry.1)

/-- The envelope rule: `Data` present and no error, or `Data` absent and a single error. -/
def GraphQLResponse.ExactlyOne (r : GraphQLResponse) : Prop :=
  (r.Data.isSome = true ∧ r.Errors = []) ∨ (r.Data = none ∧ ∃ e, r.Errors = [e])

/-! ## Outward representation

What `json.NewEncoder(w).Encode(response)` writes, as a JSON value.  Struct fields appear in
declaration order under the names of their `json` tags; a field tagged `json:"-"` is skipped;
`omitempty` skips a `nil` value; a `nil` slice or pointer is `null`; an instant is kept as its
number rather than as RFC 3339 text. -/

/-- JSON values. -/
inductive JSON where
  | null
  | bool (b : Bool)
  | num (n : Int)
  | str (s : String)
  | arr (items : List JSON)
  | obj (fields : List (String × JSON))

/-- The member names of a JSON object, in order. -/
def JSON.keys : JSON → List String
  | .obj fields => fields.map (fun kv => kv.1)
  | _ => []

/-- Encoding of a `time.Time`. -/
def timeJSON (t : Time) : JSON := .num (t : Int)

/-- Encoding of a `models.User`: `Password` and `DeletedAt` are tagged `json:"-"`. -/
def User.toJSON (u : User) : JSON :=
  .obj
    [ ("id", .num (u.ID : Int)),
      ("username", .str u.Username),
      ("email", .str u.Email),
      ("name", .str u.Name),
      ("bio", .str u.Bio),
      ("avatar", .str u.Avatar),
      ("createdAt", timeJSON u.CreatedAt),
      ("updatedAt", timeJSON u.UpdatedAt),
      ("posts", .null),
      ("likes", .null),
      ("following", .null),
      ("followers", .null) ]

/-- Encoding of a `models.Post`: `DeletedAt` is tagged `json:"-"`. -/
def Post.toJSON (p : Post) : JSON :=
  .obj
    [ ("id", .num (p.ID : Int)),
      ("content", .str p.Content),
      ("authorId", .num (p.AuthorID : Int)),
      ("parentId", match p.ParentID with
        | some parent => .num (parent : Int)
        | none => .null),
      ("createdAt", timeJSON p.CreatedAt),
      ("updatedAt", timeJSON p.UpdatedAt),
      ("author", p.Author.toJSON),
      ("parent", .null),
      ("replies", .null),
      ("likes", .null) ]

/-- Encoding of a `models.Like`. -/
def Like.toJSON (l : Like) : JSON :=
  .obj
    [ ("id", .num (l.ID : Int)),
      ("userId", .num (l.UserID : Int)),
      ("postId", .num (l.PostID : Int)),
      ("createdAt", timeJSON l.CreatedAt),
      ("user", l.User.toJSON),
      ("post", l.Post.toJSON) ]

/-- Encoding of the value stored under the key of `dataResponse`. -/
def Payload.toJSON : Payload → JSON
  | .users us => .arr (us.map User.toJSON)
  | .register token u => .obj [("token", .str token), ("user", u.toJSON)]
  | .post p => p.toJSON
  | .posts ps => .arr (ps.map Post.toJSON)
  | .like l => l.toJSON
  | .bool b => .bool b

/-- Encoding of a `GraphQLError`. -/
def GraphQLError.toJSON (e : GraphQLError) : JSON :=
  .obj [("message", .str e.Message)]

/-- Encoding of a `GraphQLResponse`; both fields are `omitempty`. -/
def GraphQLResponse.toJSON (r : GraphQLResponse) : JSON :=
  .obj
    ((match r.Data with
      | some (key, data) => [("data", JSON.obj [(key, data.toJSON)])]
      | none => []) ++
     (match r.Errors with
      | [] => []
      | errs => [("errors", JSON.arr (errs.map GraphQLError.toJSON))]))

/-! ## Sample values -/

/-- A post of 280 three-byte code points (840 bytes) by author 1. -/
def samplePost280 : Post :=
  { Content := ⟨List.replicate 280 'あ'⟩, AuthorID := 1 }

/-- Selector of the unlike-post request of the integration test (shortened). -/
def sampleUnlikeQuery : String := "mutation \x7b unlikePost(input: $input) \x7d"

/-- Selector of the register request of the integration test (shortened). -/
def sampleRegisterQuery : String :=
  "mutation \x7b register(input: $input) \x7b token user \x7b id username name email \x7d \x7d \x7d"

/-- Variables of a register request for "alice" with the given password. -/
def sampleRegisterVars (password : String) : Vars := fun key =>
  if key = "input" then
    some (.map (fun field =>
      if field = "username" then some (.str "alice")
      else if field = "email" then some (.str "alice@x.com")
      else if field = "password" then some (.str password)
      else if field = "name" then some (.str "Alice")
      else none))
  else none

/-- Selector of the list-users request of the integration test. -/
def sampleUsersQuery : String := "\x7b users \x7b id username name email \x7d \x7d"

/-- Selector of the create-post request of the integration test (shortened). -/
def sampleCreatePostQuery : String :=
  "mutation \x7b createPost(input: $input) \x7b id content author \x7b username \x7d \x7d \x7d"

/-- Selector of the list-posts request of the integration test. -/
def samplePostsQuery : String := "\x7b posts \x7b id content author \x7b username \x7d \x7d \x7d"

/-- Variables of a create-post request with the given content. -/
def sampleCreatePostVars (content : String) : Vars := fun key =>
  if key = "input" then
    some (.map (fun field => if field = "content" then some (.str content) else none))
  else none

/-- A request at instant `t`, the database answering. -/
def sampleEnv (t : Time) : Env := { now := t }

/-- Selector of the like-post request of the integration test (shortened). -/
def sampleLikeQuery : String := "mutation \x7b likePost(input: $input) \x7b id \x7d \x7d"

/-- Variables of a like-post or unlike-post request for the given post id, a JSON number. -/
def samplePostIdVars (postId : Nat) : Vars := fun key =>
  if key = "input" then
    some (.map (fun field =>
      if field = "postId" then some (.float64 (.finite false postId 0)) else none))
  else none

/-- Variables of a register request that gives a username and an email but no name. -/
def sampleNoNameVars : Vars := fun key =>
  if key = "input" then
    some (.map (fun field =>
      if field = "username" then some (.str "bob")
      else if field = "email" then some (.str "bob@x.com")
      else none))
  else none

/-- The record that `ensureDefaultUser` hands to `Create`. -/
def defaultUserRecord : User :=
  { Username := "default_user", Email := "default@example.com", Password := "password",
    Name := "Default User" }

/-- A store whose only user, with id 1, is alice. -/
def sampleStoreAlice : Store :=
  { users := [{ ID := 1, Username := "alice", Email := "alice@x.com", Name := "Alice" }],
    nextUserID := 2 }

/-- The user that `DB.First(&user, id)` finds when the database answers. -/
def Store.liveUser (s : Store) (id : Nat) : Option User :=
  s.users.find? (fun u => u.ID == id && u.DeletedAt.isNone)

/-- Whether a stored user, soft-deleted or not, holds the username or the email of the default
user, so that the unique indexes reject the insert of `defaultUserRecord`. -/
def Store.defaultTaken (s : Store) : Bool :=
  (s.users.any fun r => r.Username == defaultUserRecord.Username) ||
    (s.users.any fun r => r.Email == defaultUserRecord.Email)

/-- The row that a successful insert of `defaultUserRecord` writes. -/
def Store.defaultUserRow (s : Store) (env : Env) : User :=
  { defaultUserRecord with ID := s.nextUserID, CreatedAt := env.now, UpdatedAt := env.now }

/-- A store with alice as user 1 and one post of hers, with id 1. -/
def sampleStoreAlicePost : Store :=
  { users := [{ ID := 1, Username := "alice", Email := "alice@x.com", Name := "Alice" }],
    posts := [{ ID := 1, Content := "hello", AuthorID := 1 }],
    nextUserID := 2, nextPostID := 2 }

/-! ## Derived queries of `post.go` and `user.go`

Each runs one `Count` and returns the counter, which stays 0 when the query fails.  Queries on
`posts` skip the soft-deleted rows. -/

/-- Method `(*Post).LikeCount` of `post.go`. -/
def Post.LikeCount (p : Post) (s : Store) (env : Env) : Int :=
  if env.dbUp then ((s.likes.countP fun l => l.PostID == p.ID : Nat) : Int) else 0

/-- Method `(*Post).ReplyCount` of `post.go`. -/
def Post.ReplyCount (p : Post) (s : Store) (env : Env) : Int :=
  if env.dbUp then
    ((s.posts.countP fun q => q.ParentID == some p.ID && q.DeletedAt.isNone : Nat) : Int)
  else 0

/-- Method `(*Post).IsLikedByUser` of `post.go`. -/
def Post.IsLikedByUser (p : Post) (s : Store) (env : Env) (userID : Nat) : Bool :=
  let count : Int :=
    if env.dbUp then
      ((s.likes.countP fun l => l.PostID == p.ID && l.UserID == userID : Nat) : Int)
    else 0
  decide (count > 0)

/-- Method `(*User).FollowerCount` of `user.go`. -/
def User.FollowerCount (u : User) (s : Store) (env : Env) : Int :=
  if env.dbUp then ((s.follows.countP fun f => f.FolloweeID == u.ID : Nat) : Int) else 0

/-- Method `(*User).FollowingCount` of `user.go`. -/
def User.FollowingCount (u : User) (s : Store) (env : Env) : Int :=
  if env.dbUp then ((s.follows.countP fun f => f.FollowerID == u.ID : Nat) : Int) else 0

/-- Method `(*User).PostCount` of `user.go`. -/
def User.PostCount (u : User) (s : Store) (env : Env) : Int :=
  if env.dbUp then
    ((s.posts.countP fun q => q.AuthorID == u.ID && q.DeletedAt.isNone : Nat) : Int)
  else 0

/-- A store whose user 1, alice, is soft-deleted, with one post of hers. -/
def sampleStoreDeletedAlice : Store :=
  { users := [{ ID := 1, Username := "alice", Email := "alice@x.com", Name := "Alice",
                DeletedAt := some 5 }],
    posts := [{ ID := 1, Content := "hello", AuthorID := 1 }],
    nextUserID := 2, nextPostID := 2 }

/-- Variables of a register request for "bob". -/
def sampleBobVars : Vars := fun key =>
  if key = "input" then
    some (.map (fun field =>
      if field = "username" then some (.str "bob")
      else if field = "email" then some (.str "bob@x.com")
      else if field = "name" then some (.str "Bob")
      else none))
  else none

/-- Value of a string of decimal digits, most significant first. -/
def decimalValue (digits : List Char) : Nat :=
  digits.foldl (fun acc c => 10 * acc + (c.toNat - 48)) 0

/-- A store whose user 1, alice, is soft-deleted, and whose post row carries a stale author. -/
def sampleStoreStaleAuthor : Store :=
  { users := [{ ID := 1, Username := "alice", Email := "alice@x.com", Name := "Alice",
                DeletedAt := some 5 }],
    posts := [{ ID := 1, Content := "hello", AuthorID := 1,
                Author := { ID := 9, Username := "ghost" } }],
    nextUserID := 2, nextPostID := 2 }

/-- The store that one resolution of the acting user leaves from `sampleStoreDeletedAlice`:
user 1, alice, is soft-deleted and the default user is stored with id 2. -/
def sampleStoreLostDefaultUser : Store :=
  { users := [{ ID := 1, Username := "alice", Email := "alice@x.com", Name := "Alice",
                DeletedAt := some 5 },
              { ID := 2, Username := "default_user", Email := "default@example.com",
                Password := "password", Name := "Default User", CreatedAt := 1,
                UpdatedAt := 1 }],
    posts := [{ ID := 1, Content := "hello", AuthorID := 1 }],
    nextUserID := 3, nextPostID := 2 }

/-! ## Properties -/

set_option maxRecDepth 100000

theorem trimSpace_eq_empty_iff (s : String) :
    TrimSpace s = "" ↔ ∀ c ∈ s.data, isSpace c = true := by
  have key : TrimSpace s = "" ↔ s.data.dropWhile isSpace = [] := by
    unfold TrimSpace
    constructor
    · intro h
      have h1 : ((s.data.dropWhile isSpace).reverse.dropWhile isSpace).reverse = [] :=
        congrArg String.data h
      rw [List.reverse_eq_nil_iff] at h1
      by_contra hne
      obtain ⟨l, a, hl⟩ : ∃ l a, s.data.dropWhile isSpace = a :: l := by
        cases hd : s.data.dropWhile isSpace with
        | nil => exact absurd hd hne
        | cons a l => exact ⟨l, a, rfl⟩
      have ha : isSpace a = false := by
        have := List.head_dropWhile_not isSpace s.data (by rw [hl]; simp)
        simpa [hl] using this
      rw [List.dropWhile_eq_nil_iff] at h1
      have := h1 a (by rw [hl]; simp)
      rw [ha] at this
      exact absurd this (by simp)
    · intro h
      rw [h]
      rfl
  rw [key, List.dropWhile_eq_nil_iff]

theorem except_error_ne_ok (msg : String) : (Except.error msg : Except String Unit) ≠ .ok () := by
  intro h
  cases h

/-- C1: `Post.BeforeCreate` returns no error exactly when the content is non-empty after
trimming white space, has at most 280 code points (code points, not bytes) and the author id is
non-zero.  Hence non-blank content of exactly 280 code points with a non-zero author is accepted,
content of 281 code points is rejected, and content made of white space only is rejected. -/
theorem post_beforeCreate_ok_iff (p : Post) :
    (p.BeforeCreate = .ok () ↔
        TrimSpace p.Content ≠ "" ∧ runeCount p.Content ≤ 280 ∧ p.AuthorID ≠ 0) ∧
    (runeCount p.Content = 280 → TrimSpace p.Content ≠ "" → p.AuthorID ≠ 0 →
        p.BeforeCreate = .ok ()) ∧
    (runeCount p.Content = 281 → p.BeforeCreate ≠ .ok ()) ∧
    ((∀ c ∈ p.Content.data, isSpace c = true) → p.BeforeCreate ≠ .ok ()) := by
  have main : p.BeforeCreate = .ok () ↔
      TrimSpace p.Content ≠ "" ∧ runeCount p.Content ≤ 280 ∧ p.AuthorID ≠ 0 := by
    unfold Post.BeforeCreate
    by_cases h1 : TrimSpace p.Content = ""
    · simp [h1, except_error_ne_ok]
    · by_cases h2 : runeCount p.Content > 280
      · simp [h1, h2, except_error_ne_ok]
      · by_cases h3 : p.AuthorID = 0
        · simp [h1, h2, h3, except_error_ne_ok]
        · rw [if_neg h1, if_neg h2, if_neg h3]
          exact ⟨fun _ => ⟨h1, by omega, h3⟩, fun _ => rfl⟩
  refine ⟨main, ?_, ?_, ?_⟩
  · intro h280 hne ha
    exact main.2 ⟨hne, by omega, ha⟩
  · intro h281 hok
    have := (main.1 hok).2.1
    omega
  · intro hws hok
    exact (main.1 hok).1 ((trimSpace_eq_empty_iff _).2 hws)

/-- Witness for C1: 280 code points that take 840 bytes are accepted. -/
theorem post_beforeCreate_ok_iff_witness :
    samplePost280.Content.utf8ByteSize = 840 ∧ samplePost280.BeforeCreate = .ok () :=
  ⟨by decide,
   (post_beforeCreate_ok_iff samplePost280).2.1 (by decide) (by decide) (by decide)⟩

/-- C2: `Follow.BeforeCreate` returns no error exactly when both ids are non-zero and `IsValid`
holds; `IsValid` holds exactly when the two ids differ; a follow whose two ids are equal is
rejected whatever the id, zero included. -/
theorem follow_beforeCreate_ok_iff (f : Follow) :
    (f.BeforeCreate = .ok () ↔
        f.FollowerID ≠ 0 ∧ f.FolloweeID ≠ 0 ∧ f.IsValid = true) ∧
    (f.IsValid = true ↔ f.FollowerID ≠ f.FolloweeID) ∧
    (f.FollowerID = f.FolloweeID → f.BeforeCreate ≠ .ok ()) := by
  have hv : f.IsValid = true ↔ f.FollowerID ≠ f.FolloweeID := by
    simp [Follow.IsValid]
  have main : f.BeforeCreate = .ok () ↔
      f.FollowerID ≠ 0 ∧ f.FolloweeID ≠ 0 ∧ f.IsValid = true := by
    unfold Follow.BeforeCreate
    by_cases h1 : f.FollowerID = 0
    · simp [h1, except_error_ne_ok]
    · by_cases h2 : f.FolloweeID = 0
      · simp [h1, h2, except_error_ne_ok]
      · cases h3 : f.IsValid <;> simp [h1, h2, except_error_ne_ok]
  refine ⟨main, hv, ?_⟩
  intro heq hok
  exact (hv.1 (main.1 hok).2.2) heq

/-- Witness for C2: following oneself is rejected for the id zero and for the id 7. -/
theorem follow_beforeCreate_ok_iff_witness :
    ({ FollowerID := 0, FolloweeID := 0 } : Follow).BeforeCreate ≠ .ok () ∧
    ({ FollowerID := 7, FolloweeID := 7 } : Follow).BeforeCreate ≠ .ok () :=
  ⟨(follow_beforeCreate_ok_iff { FollowerID := 0, FolloweeID := 0 }).2.2 rfl,
   (follow_beforeCreate_ok_iff { FollowerID := 7, FolloweeID := 7 }).2.2 rfl⟩

/-- C3: `Like.BeforeCreate` returns no error exactly when the user id and the post id are both
non-zero. -/
theorem like_beforeCreate_ok_iff (l : Like) :
    l.BeforeCreate = .ok () ↔ l.UserID ≠ 0 ∧ l.PostID ≠ 0 := by
  unfold Like.BeforeCreate
  by_cases h1 : l.UserID = 0
  · simp [h1, except_error_ne_ok]
  · by_cases h2 : l.PostID = 0
    · simp [h1, h2, except_error_ne_ok]
    · simp [h1, h2]

/-- C4: `User.BeforeCreate` returns no error exactly when `Username`, `Email` and `Name` are
all non-empty, and its result is a function of these three fields alone: two users that agree
on them get the same result, whatever their `Password`, `Bio`, `Avatar` and other fields. -/
theorem user_beforeCreate_ok_iff (u : User) :
    (u.BeforeCreate = .ok () ↔ u.Username ≠ "" ∧ u.Email ≠ "" ∧ u.Name ≠ "") ∧
    (∀ v : User, v.Username = u.Username → v.Email = u.Email → v.Name = u.Name →
        v.BeforeCreate = u.BeforeCreate) := by
  constructor
  · unfold User.BeforeCreate
    by_cases h1 : u.Username = ""
    · simp [h1, except_error_ne_ok]
    · by_cases h2 : u.Email = ""
      · simp [h1, h2, except_error_ne_ok]
      · by_cases h3 : u.Name = ""
        · simp [h1, h2, h3, except_error_ne_ok]
        · simp [h1, h2, h3]
  · intro v h1 h2 h3
    unfold User.BeforeCreate
    rw [h1, h2, h3]

/-- Witness for C4: changing password, bio and avatar does not change the result. -/
theorem user_beforeCreate_ok_iff_witness :
    ({ Username := "a", Email := "b", Name := "c", Password := "p", Bio := "q",
        Avatar := "r" } : User).BeforeCreate
      = ({ Username := "a", Email := "b", Name := "c" } : User).BeforeCreate :=
  (user_beforeCreate_ok_iff { Username := "a", Email := "b", Name := "c" }).2
    { Username := "a", Email := "b", Name := "c", Password := "p", Bio := "q", Avatar := "r" }
    rfl rfl rfl

/-! ### Routing -/

theorem contains_iff_isInfix (s substr : List UInt8) :
    contains s substr = true ↔ substr <:+: s := by
  induction s with
  | nil =>
    unfold contains
    cases substr with
    | nil => simp
    | cons a l => simp
  | cons c s ih =>
    rw [List.infix_cons_iff]
    unfold contains
    simp only [Bool.and_eq_true, Bool.or_eq_true, decide_eq_true_eq, beq_iff_eq, ih]
    constructor
    · rintro ⟨_, h | ⟨_, h | h⟩⟩
      · left; rw [h]
      · left; rw [← h]; exact List.take_prefix _ _
      · right; exact h
    · rintro (h | h)
      · have hlen := h.length_le
        refine ⟨hlen, ?_⟩
        rcases Nat.lt_or_ge substr.length (c :: s).length with hlt | hge
        · right
          refine ⟨hlt, Or.inl ?_⟩
          exact (List.prefix_iff_eq_take.1 h).symm
        · left
          exact (h.eq_of_length (le_antisymm hlen hge)).symm
      · have hlen := h.length_le
        have h1 : substr.length < (c :: s).length := by
          simp only [List.length_cons]; omega
        exact ⟨le_of_lt h1, Or.inr ⟨h1, Or.inr h⟩⟩

theorem executeQueryWith_eq_call {ρ : Type} (h : Handlers ρ) (query : String) (vars : Vars) :
    executeQueryWith h query vars = h.call (route query) vars := by
  unfold route executeQueryWith
  split_ifs <;> rfl

theorem executeQuery_eq_call (s : Store) (env : Env) (query : String) (vars : Vars) :
    executeQuery s env query vars = (serverHandlers s env).call (route query) vars :=
  executeQueryWith_eq_call _ _ _

theorem firstMatch_markerOrder (query : String) :
    firstMatch (markerOrder query) =
      if route query = .notImplemented then none else some (route query) := by
  simp only [firstMatch, markerOrder, route, executeQueryWith]
  generalize contains (bytes query) (bytes "users") = a
  generalize contains (bytes query) (bytes "mutation") = b
  generalize contains (bytes query) (bytes "register") = c
  generalize contains (bytes query) (bytes "createPost") = d
  generalize contains (bytes query) (bytes "posts") = e
  generalize contains (bytes query) (bytes "unlikePost") = f
  generalize contains (bytes query) (bytes "likePost") = g
  cases a <;> cases b <;> cases c <;> cases d <;> cases e <;> cases f <;> cases g <;> decide

/-! ### The response envelope -/

theorem exactlyOne_errorResponse (message : String) : (errorResponse message).ExactlyOne :=
  Or.inr ⟨rfl, _, rfl⟩

theorem exactlyOne_dataResponse (key : String) (data : Payload) :
    (dataResponse key data).ExactlyOne :=
  Or.inl ⟨rfl, rfl⟩

theorem exactlyOne_handleUsersQuery (s : Store) (env : Env) :
    (handleUsersQuery s env).1.ExactlyOne := by
  unfold handleUsersQuery
  split
  · exact exactlyOne_errorResponse _
  · exact exactlyOne_dataResponse _ _

theorem exactlyOne_handlePostsQuery (s : Store) (env : Env) :
    (handlePostsQuery s env).1.ExactlyOne := by
  unfold handlePostsQuery
  split
  · exact exactlyOne_errorResponse _
  · exact exactlyOne_dataResponse _ _

theorem exactlyOne_handleRegisterMutation (s : Store) (env : Env) (vars : Vars) :
    (handleRegisterMutation s env vars).1.ExactlyOne := by
  unfold handleRegisterMutation
  dsimp only
  repeat' split
  all_goals first | exact exactlyOne_errorResponse _ | exact exactlyOne_dataResponse _ _

theorem exactlyOne_handleCreatePostMutation (s : Store) (env : Env) (vars : Vars) :
    (handleCreatePostMutation s env vars).1.ExactlyOne := by
  unfold handleCreatePostMutation
  dsimp only
  repeat' split
  all_goals first | exact exactlyOne_errorResponse _ | exact exactlyOne_dataResponse _ _

theorem exactlyOne_handleLikePostMutation (s : Store) (env : Env) (vars : Vars) :
    (handleLikePostMutation s env vars).1.ExactlyOne := by
  unfold handleLikePostMutation
  dsimp only
  repeat' split
  all_goals first | exact exactlyOne_errorResponse _ | exact exactlyOne_dataResponse _ _

theorem exactlyOne_handleUnlikePostMutation (s : Store) (env : Env) (vars : Vars) :
    (handleUnlikePostMutation s env vars).1.ExactlyOne := by
  unfold handleUnlikePostMutation
  dsimp only
  repeat' split
  all_goals first | exact exactlyOne_errorResponse _ | exact exactlyOne_dataResponse _ _

/-- C5: for every selector, variable bag and store state, the response of `executeQuery` has
exactly one of its two parts populated: `Data` is present and `Errors` is empty, or `Data` is
absent and `Errors` holds exactly one element. -/
theorem executeQuery_data_xor_errors (s : Store) (env : Env) (query : String) (vars : Vars) :
    (((executeQuery s env query vars).1.Data.isSome = true ∧
        (executeQuery s env query vars).1.Errors = []) ∨
      ((executeQuery s env query vars).1.Data = none ∧
        ∃ e, (executeQuery s env query vars).1.Errors = [e])) := by
  show (executeQuery s env query vars).1.ExactlyOne
  rw [executeQuery_eq_call]
  cases route query
  · exact exactlyOne_handleUsersQuery s env
  · exact exactlyOne_handleRegisterMutation s env vars
  · exact exactlyOne_handleCreatePostMutation s env vars
  · exact exactlyOne_handlePostsQuery s env
  · exact exactlyOne_handleUnlikePostMutation s env vars
  · exact exactlyOne_handleLikePostMutation s env vars
  · exact Or.inr ⟨rfl, _, rfl⟩

theorem routeTags_call (r : Route) (vars : Vars) : routeTags.call r vars = r := by
  cases r <;> rfl

theorem contains_likePost_of_unlikePost (s : List UInt8)
    (h : contains s (bytes "unlikePost") = true) : contains s (bytes "likePost") = true := by
  rw [contains_iff_isInfix] at h ⊢
  have hsub : bytes "likePost" <:+: bytes "unlikePost" := ⟨bytes "un", [], by decide⟩
  exact hsub.trans h

/-- C6: `executeQuery` invokes the first handler, in the order list-users, register,
create-post, list-posts, unlike-post, like-post, whose marker condition holds on the selector;
when no condition holds it invokes no handler and returns the single error
"Query not implemented". -/
theorem executeQuery_first_match (s : Store) (env : Env) (query : String) (vars : Vars) :
    (∀ (ρ : Type) (h : Handlers ρ), executeQueryWith h query vars =
        match firstMatch (markerOrder query) with
        | some r => h.call r vars
        | none => h.notImplemented) ∧
    executeQuery s env query vars =
      (match firstMatch (markerOrder query) with
       | some .users => handleUsersQuery s env
       | some .register => handleRegisterMutation s env vars
       | some .createPost => handleCreatePostMutation s env vars
       | some .posts => handlePostsQuery s env
       | some .unlikePost => handleUnlikePostMutation s env vars
       | some .likePost => handleLikePostMutation s env vars
       | _ => ({ Data := none, Errors := [{ Message := "Query not implemented" }] }, s)) := by
  rw [firstMatch_markerOrder]
  refine ⟨fun ρ h => ?_, ?_⟩
  · rw [executeQueryWith_eq_call]
    cases route query <;> rfl
  · rw [executeQuery_eq_call]
    cases route query <;> rfl

theorem route_eq_likePost_iff (query : String) :
    route query = .likePost ↔
      contains (bytes query) (bytes "mutation") = true ∧
      contains (bytes query) (bytes "likePost") = true ∧
      contains (bytes query) (bytes "register") = false ∧
      contains (bytes query) (bytes "createPost") = false ∧
      contains (bytes query) (bytes "unlikePost") = false := by
  simp only [route, executeQueryWith]
  generalize contains (bytes query) (bytes "users") = a
  generalize contains (bytes query) (bytes "mutation") = b
  generalize contains (bytes query) (bytes "register") = c
  generalize contains (bytes query) (bytes "createPost") = d
  generalize contains (bytes query) (bytes "posts") = e
  generalize contains (bytes query) (bytes "unlikePost") = f
  generalize contains (bytes query) (bytes "likePost") = g
  cases a <;> cases b <;> cases c <;> cases d <;> cases e <;> cases f <;> cases g <;> decide

theorem route_eq_unlikePost_of (query : String)
    (hm : contains (bytes query) (bytes "mutation") = true)
    (hu : contains (bytes query) (bytes "unlikePost") = true)
    (hr : contains (bytes query) (bytes "register") = false)
    (hc : contains (bytes query) (bytes "createPost") = false) :
    route query = .unlikePost := by
  simp only [route, executeQueryWith, hm, hu, hr, hc]
  generalize contains (bytes query) (bytes "users") = a
  generalize contains (bytes query) (bytes "posts") = e
  generalize contains (bytes query) (bytes "likePost") = g
  cases a <;> cases e <;> cases g <;> decide

/-- C7: a selector that contains "mutation" and "unlikePost" and neither "register" nor
"createPost" also contains "likePost", yet `executeQuery` calls the unlike-post handler on it,
whatever the handlers are, and so never the like-post handler; the like-post handler is the one
called exactly when the selector contains "mutation" and "likePost" and none of "register",
"createPost" and "unlikePost". -/
theorem unlikePost_checked_before_likePost (s : Store) (env : Env) (query : String)
    (vars : Vars) :
    (contains (bytes query) (bytes "mutation") = true →
      contains (bytes query) (bytes "unlikePost") = true →
      contains (bytes query) (bytes "register") = false →
      contains (bytes query) (bytes "createPost") = false →
        contains (bytes query) (bytes "likePost") = true ∧
        route query = .unlikePost ∧
        route query ≠ .likePost ∧
        (∀ (ρ : Type) (h : Handlers ρ),
          executeQueryWith h query vars = h.handleUnlikePostMutation vars) ∧
        executeQuery s env query vars = handleUnlikePostMutation s env vars) ∧
    ((∀ (ρ : Type) (h : Handlers ρ),
        executeQueryWith h query vars = h.handleLikePostMutation vars) ↔
      route query = .likePost) ∧
    (route query = .likePost ↔
      contains (bytes query) (bytes "mutation") = true ∧
      contains (bytes query) (bytes "likePost") = true ∧
      contains (bytes query) (bytes "register") = false ∧
      contains (bytes query) (bytes "createPost") = false ∧
      contains (bytes query) (bytes "unlikePost") = false) := by
  refine ⟨fun hm hu hr hc => ?_, ⟨fun h => ?_, fun h ρ hd => ?_⟩, route_eq_likePost_iff query⟩
  · have hroute := route_eq_unlikePost_of query hm hu hr hc
    refine ⟨contains_likePost_of_unlikePost _ hu, hroute, ?_, fun ρ h => ?_, ?_⟩
    · rw [hroute]; decide
    · rw [executeQueryWith_eq_call, hroute]; rfl
    · rw [executeQuery_eq_call, hroute]; rfl
  · have := h Route routeTags
    rw [executeQueryWith_eq_call, routeTags_call] at this
    exact this
  · rw [executeQueryWith_eq_call, h]; rfl

/-- Witness for C7: the selector of the unlike-post integration test contains "likePost" and
goes to the unlike-post handler. -/
theorem unlikePost_checked_before_likePost_witness :
    contains (bytes sampleUnlikeQuery) (bytes "likePost") = true ∧
    route sampleUnlikeQuery = .unlikePost ∧
    executeQuery Store.empty {} sampleUnlikeQuery (fun _ => none)
      = handleUnlikePostMutation Store.empty {} (fun _ => none) :=
  have h := (unlikePost_checked_before_likePost Store.empty {} sampleUnlikeQuery
    (fun _ => none)).1 (by decide) (by decide) (by decide) (by decide)
  ⟨h.1, h.2.1, h.2.2.2.2⟩

/-! ### The password stays inside -/

theorem getString_congr (m1 m2 : Vars) (key : String) (h : m1 key = m2 key) :
    getString m1 key = getString m2 key := by
  unfold getString
  rw [h]

theorem user_beforeCreate_password (u : User) (pw : String) :
    ({ u with Password := pw } : User).BeforeCreate = u.BeforeCreate := rfl

theorem createUser_password (s : Store) (env : Env) (u : User) (pw : String) :
    (∃ e s1 s2, s.createUser env u = (.error e, s1) ∧
        s.createUser env { u with Password := pw } = (.error e, s2)) ∨
    (∃ r s1 s2, s.createUser env u = (.ok r, s1) ∧
        s.createUser env { u with Password := pw } = (.ok { r with Password := pw }, s2)) := by
  cases hup : env.dbUp with
  | false => exact Or.inl ⟨.connection, s, s, by simp [Store.createUser, hup], by simp [Store.createUser, hup]⟩
  | true =>
    cases hb : u.BeforeCreate with
    | error msg =>
      have hb2 : ({ u with Password := pw } : User).BeforeCreate = .error msg := hb
      exact Or.inl ⟨.hook msg, s, s, by simp [Store.createUser, hup, hb],
        by simp [Store.createUser, hup, hb2]⟩
    | ok v =>
      have hb2 : ({ u with Password := pw } : User).BeforeCreate = .ok v := hb
      by_cases h1 : (s.users.any fun r => r.Username == u.Username) = true
      · exact Or.inl ⟨_, _, _, by simp only [Store.createUser, hup, hb, h1, if_true]; rfl,
          by simp only [Store.createUser, hup, hb2, h1, if_true]; rfl⟩
      · by_cases h2 : (s.users.any fun r => r.Email == u.Email) = true
        · exact Or.inl ⟨_, _, _, by simp only [Store.createUser, hup, hb, h1, h2, if_true, if_false]; rfl,
            by simp only [Store.createUser, hup, hb2, h1, h2, if_true, if_false]; rfl⟩
        · exact Or.inr ⟨_, _, _, by simp only [Store.createUser, hup, hb, h1, h2, if_true, if_false]; rfl,
            by simp only [Store.createUser, hup, hb2, h1, h2, if_true, if_false]; rfl⟩

theorem handleRegisterMutation_password (s : Store) (env : Env) (vars1 vars2 input1 input2 : Vars)
    (h1 : vars1 "input" = some (.map input1)) (h2 : vars2 "input" = some (.map input2))
    (hsame : ∀ key, key ≠ "password" → input1 key = input2 key) :
    (handleRegisterMutation s env vars1).1.toJSON
      = (handleRegisterMutation s env vars2).1.toJSON := by
  unfold handleRegisterMutation
  rw [h1, h2]
  dsimp only
  rw [getString_congr input1 input2 "username" (hsame _ (by decide)),
    getString_congr input1 input2 "email" (hsame _ (by decide)),
    getString_congr input1 input2 "name" (hsame _ (by decide)),
    getString_congr input1 input2 "bio" (hsame _ (by decide))]
  rcases createUser_password s env
      { Username := getString input2 "username", Email := getString input2 "email",
        Password := getString input1 "password", Name := getString input2 "name",
        Bio := getString input2 "bio" } (getString input2 "password") with
    ⟨e, s1, s2, ha, hb⟩ | ⟨r, s1, s2, ha, hb⟩
  · rw [ha]
    have hb' : s.createUser env
        { Username := getString input2 "username", Email := getString input2 "email",
          Password := getString input2 "password", Name := getString input2 "name",
          Bio := getString input2 "bio" } = (.error e, s2) := hb
    rw [hb']
  · rw [ha]
    have hb' : s.createUser env
        { Username := getString input2 "username", Email := getString input2 "email",
          Password := getString input2 "password", Name := getString input2 "name",
          Bio := getString input2 "bio" } = (.ok { r with Password := getString input2 "password" }, s2) := hb
    rw [hb']
    rfl

/-- C8: the JSON form of a `User` has no member for `Password` and does not depend on it, and
two register requests on the same store that differ only in the password value get the same
encoded response. -/
theorem password_never_outward (s : Store) (env : Env) (query : String)
    (vars1 vars2 input1 input2 : Vars) (u : User) (pw : String) :
    (u.toJSON.keys = ["id", "username", "email", "name", "bio", "avatar", "createdAt",
        "updatedAt", "posts", "likes", "following", "followers"] ∧
      "password" ∉ u.toJSON.keys ∧ "Password" ∉ u.toJSON.keys) ∧
    ({ u with Password := pw } : User).toJSON = u.toJSON ∧
    (route query = .register →
      vars1 "input" = some (.map input1) → vars2 "input" = some (.map input2) →
      (∀ key, key ≠ "password" → input1 key = input2 key) →
        (executeQuery s env query vars1).1.toJSON = (executeQuery s env query vars2).1.toJSON) := by
  refine ⟨⟨rfl, by simp [User.toJSON, JSON.keys], by simp [User.toJSON, JSON.keys]⟩, rfl,
    fun hq h1 h2 hsame => ?_⟩
  rw [executeQuery_eq_call, executeQuery_eq_call, hq]
  exact handleRegisterMutation_password s env vars1 vars2 input1 input2 h1 h2 hsame

/-- Witness for C8: registering alice with password "pw1" or "pw2" gives the same encoded
response, while the stores differ. -/
theorem password_never_outward_witness :
    (executeQuery Store.empty {} sampleRegisterQuery (sampleRegisterVars "pw1")).1.toJSON
      = (executeQuery Store.empty {} sampleRegisterQuery (sampleRegisterVars "pw2")).1.toJSON ∧
    (executeQuery Store.empty {} sampleRegisterQuery (sampleRegisterVars "pw1")).2
      ≠ (executeQuery Store.empty {} sampleRegisterQuery (sampleRegisterVars "pw2")).2 :=
  ⟨(password_never_outward Store.empty {} sampleRegisterQuery (sampleRegisterVars "pw1")
      (sampleRegisterVars "pw2") _ _ {} "").2.2 (by decide) rfl rfl
      (fun key hkey => by
        show (if key = "username" then _ else _) = (if key = "username" then _ else _)
        simp [hkey]),
   by decide⟩

/-! ### Registration round trip -/

theorem getString_str (m : Vars) (key str : String) (h : m key = some (.str str)) :
    getString m key = str := by
  unfold getString
  rw [h]

theorem user_beforeCreate_ok (u : User) (h1 : u.Username ≠ "") (h2 : u.Email ≠ "")
    (h3 : u.Name ≠ "") : u.BeforeCreate = .ok () := by
  unfold User.BeforeCreate
  rw [if_neg h1, if_neg h2, if_neg h3]

theorem createUser_ok (s : Store) (env : Env) (u : User) (hup : env.dbUp = true)
    (hb : u.BeforeCreate = .ok ())
    (hfree : ∀ r ∈ s.users, r.Username ≠ u.Username ∧ r.Email ≠ u.Email) :
    s.createUser env u =
      (.ok { u with ID := s.nextUserID, CreatedAt := env.now, UpdatedAt := env.now },
        { s with
          users := s.users ++
            [{ u with ID := s.nextUserID, CreatedAt := env.now, UpdatedAt := env.now }],
          nextUserID := s.nextUserID + 1 }) := by
  have h1 : (s.users.any fun r => r.Username == u.Username) = false := by
    rw [List.any_eq_false]
    intro r hr
    simpa using (hfree r hr).1
  have h2 : (s.users.any fun r => r.Email == u.Email) = false := by
    rw [List.any_eq_false]
    intro r hr
    simpa using (hfree r hr).2
  simp only [Store.createUser, hup, hb, h1, h2, if_true]
  rfl

/-- C9: on every store, with the database answering, a register request whose username, email
and name are non-empty strings that no stored user holds succeeds, and the response of a
following list-users request contains a user with exactly this username, email and name. -/
theorem register_then_list_users (s : Store) (env1 env2 : Env) (query1 query2 : String)
    (vars1 vars2 input : Vars) (username email name : String)
    (hup1 : env1.dbUp = true) (hup2 : env2.dbUp = true)
    (hq1 : route query1 = .register) (hq2 : route query2 = .users)
    (hin : vars1 "input" = some (.map input))
    (hu : input "username" = some (.str username))
    (he : input "email" = some (.str email))
    (hn : input "name" = some (.str name))
    (hu0 : username ≠ "") (he0 : email ≠ "") (hn0 : name ≠ "")
    (hfree : ∀ r ∈ s.users, r.Username ≠ username ∧ r.Email ≠ email) :
    (∃ token user,
      (executeQuery s env1 query1 vars1).1 = dataResponse "register" (.register token user) ∧
      user.Username = username ∧ user.Email = email ∧ user.Name = name) ∧
    (∃ users,
      (executeQuery (executeQuery s env1 query1 vars1).2 env2 query2 vars2).1
        = dataResponse "users" (.users users) ∧
      ∃ u ∈ users, u.Username = username ∧ u.Email = email ∧ u.Name = name) := by
  have hreg : executeQuery s env1 query1 vars1 = handleRegisterMutation s env1 vars1 := by
    rw [executeQuery_eq_call, hq1]; rfl
  have hlist : ∀ s1, executeQuery s1 env2 query2 vars2 = handleUsersQuery s1 env2 := by
    intro s1
    rw [executeQuery_eq_call, hq2]; rfl
  rw [hlist, hreg]
  unfold handleRegisterMutation
  rw [hin]
  dsimp only
  rw [getString_str _ _ _ hu, getString_str _ _ _ he, getString_str _ _ _ hn]
  rw [createUser_ok s env1 _ hup1 (user_beforeCreate_ok _ hu0 he0 hn0) hfree]
  refine ⟨⟨_, _, rfl, rfl, rfl, rfl⟩, ?_⟩
  simp only [handleUsersQuery, Store.findUsers, hup2, if_true]
  refine ⟨_, rfl, ?_⟩
  refine ⟨_, List.mem_filter.2 ⟨List.mem_append_right _ (List.mem_singleton_self _), rfl⟩,
    rfl, rfl, rfl⟩

/-- Witness for C9: registering alice on the empty store, then listing the users. -/
theorem register_then_list_users_witness :
    ∃ users,
      (executeQuery (executeQuery Store.empty {} sampleRegisterQuery
          (sampleRegisterVars "pw")).2 {} sampleUsersQuery (fun _ => none)).1
        = dataResponse "users" (.users users) ∧
      ∃ u ∈ users, u.Username = "alice" ∧ u.Email = "alice@x.com" ∧ u.Name = "Alice" :=
  (register_then_list_users Store.empty {} {} sampleRegisterQuery sampleUsersQuery
    (sampleRegisterVars "pw") (fun _ => none) _ "alice" "alice@x.com" "Alice"
    rfl rfl (by decide) (by decide) rfl rfl rfl rfl (by decide) (by decide) (by decide)
    (by intro r hr; cases hr)).2

/-! ### End-to-end scenario -/

/-- C10: from the empty store, with the database answering, register of "alice" /
"alice@x.com" with a non-empty name, then create-post with content "hello", then list-posts:
the last response holds exactly one post, its content is "hello" and its author's username is
"alice". -/
theorem alice_hello_scenario (env1 env2 env3 : Env) (query1 query2 query3 : String)
    (vars1 vars2 vars3 input1 input2 : Vars) (name : String)
    (hup1 : env1.dbUp = true) (hup2 : env2.dbUp = true) (hup3 : env3.dbUp = true)
    (hq1 : route query1 = .register) (hq2 : route query2 = .createPost)
    (hq3 : route query3 = .posts)
    (hin1 : vars1 "input" = some (.map input1))
    (hu : input1 "username" = some (.str "alice"))
    (he : input1 "email" = some (.str "alice@x.com"))
    (hn : input1 "name" = some (.str name)) (hn0 : name ≠ "")
    (hin2 : vars2 "input" = some (.map input2))
    (hc : input2 "content" = some (.str "hello")) :
    ∃ p : Post,
      (executeQuery
        (executeQuery (executeQuery Store.empty env1 query1 vars1).2 env2 query2 vars2).2
        env3 query3 vars3).1 = dataResponse "posts" (.posts [p]) ∧
      p.Content = "hello" ∧ p.Author.Username = "alice" := by
  have hreg : executeQuery Store.empty env1 query1 vars1
      = handleRegisterMutation Store.empty env1 vars1 := by
    rw [executeQuery_eq_call, hq1]; rfl
  have hpost : ∀ s1, executeQuery s1 env2 query2 vars2
      = handleCreatePostMutation s1 env2 vars2 := by
    intro s1
    rw [executeQuery_eq_call, hq2]; rfl
  have hlist : ∀ s1, executeQuery s1 env3 query3 vars3 = handlePostsQuery s1 env3 := by
    intro s1
    rw [executeQuery_eq_call, hq3]; rfl
  rw [hlist, hpost, hreg]
  unfold handleRegisterMutation
  rw [hin1]
  dsimp only
  rw [getString_str _ _ _ hu, getString_str _ _ _ he, getString_str _ _ _ hn]
  rw [createUser_ok Store.empty env1 _ hup1
    (user_beforeCreate_ok _ (by show "alice" ≠ ""; decide)
      (by show "alice@x.com" ≠ ""; decide) hn0)
    (by intro r hr; cases hr)]
  unfold handleCreatePostMutation
  rw [hin2]
  dsimp only
  rw [getString_str _ _ _ hc]
  have hbc : ({ Content := "hello", AuthorID := 1 } : Post).BeforeCreate = .ok () := by
    unfold Post.BeforeCreate
    rw [if_neg (by decide), if_neg (by decide), if_neg (by decide)]
  simp [ensureDefaultUser, Store.firstUser, Store.createPost, Store.firstPost,
    Store.preloadAuthor, handlePostsQuery, Store.findPostsNewestFirst, Post.scanned,
    Store.empty, defaultUserID, hup2, hup3, hbc, dataResponse]

/-- Witness for C10: the scenario with the selectors of the integration test, at the instants
1, 2 and 3. -/
theorem alice_hello_scenario_witness :
    ∃ p : Post,
      (executeQuery
        (executeQuery
          (executeQuery Store.empty (sampleEnv 1) sampleRegisterQuery
            (sampleRegisterVars "pw")).2
          (sampleEnv 2) sampleCreatePostQuery (sampleCreatePostVars "hello")).2
        (sampleEnv 3) samplePostsQuery (fun _ => none)).1 = dataResponse "posts" (.posts [p]) ∧
      p.Content = "hello" ∧ p.Author.Username = "alice" :=
  alice_hello_scenario (sampleEnv 1) (sampleEnv 2) (sampleEnv 3) sampleRegisterQuery
    sampleCreatePostQuery samplePostsQuery (sampleRegisterVars "pw")
    (sampleCreatePostVars "hello") (fun _ => none) _ _ "Alice"
    rfl rfl rfl (by decide) (by decide) (by decide) rfl rfl rfl rfl (by decide) rfl rfl

/-! ### Requests rejected before any write -/

theorem getString_eq_empty (m : Vars) (key : String)
    (h : ∀ str, m key = some (.str str) → str = "") : getString m key = "" := by
  unfold getString
  split
  · next str heq => exact h str heq
  · rfl

/-- C11: on every store, a create-post request whose content is the empty string, is absent or
is not a string (or whose variables carry no input map at all) gets a response with exactly one
error and no data, and the store is left as it was. -/
theorem createPost_without_content (s : Store) (env : Env) (query : String) (vars : Vars)
    (hq : route query = .createPost)
    (hc : ∀ input str, vars "input" = some (.map input) →
      input "content" = some (.str str) → str = "") :
    (executeQuery s env query vars).1.Data = none ∧
    (∃ e, (executeQuery s env query vars).1.Errors = [e]) ∧
    (executeQuery s env query vars).2 = s := by
  have hroute : executeQuery s env query vars = handleCreatePostMutation s env vars := by
    rw [executeQuery_eq_call, hq]; rfl
  have herr : ∃ msg, handleCreatePostMutation s env vars = (errorResponse msg, s) := by
    unfold handleCreatePostMutation
    split
    · next input hin =>
      have hempty : getString input "content" = "" :=
        getString_eq_empty _ _ (fun str h => hc input str hin h)
      simp only [hempty, if_true]
      exact ⟨_, rfl⟩
    · exact ⟨_, rfl⟩
  obtain ⟨msg, hmsg⟩ := herr
  rw [hroute, hmsg]
  exact ⟨rfl, ⟨_, rfl⟩, rfl⟩

/-- Witness for C11: empty content on the empty store. -/
theorem createPost_without_content_witness :
    (executeQuery Store.empty {} sampleCreatePostQuery (sampleCreatePostVars "")).1.Data = none ∧
    (∃ e, (executeQuery Store.empty {} sampleCreatePostQuery
      (sampleCreatePostVars "")).1.Errors = [e]) ∧
    (executeQuery Store.empty {} sampleCreatePostQuery (sampleCreatePostVars "")).2
      = Store.empty :=
  createPost_without_content Store.empty {} sampleCreatePostQuery (sampleCreatePostVars "")
    (by decide)
    (fun input str hin hstr => by
      have h1 : input = fun field => if field = "content" then some (.str "") else none := by
        have := hin
        simp only [sampleCreatePostVars, if_true, Option.some.injEq, Value.map.injEq] at this
        exact this.symm
      subst h1
      simp only [if_true, Option.some.injEq, Value.str.injEq] at hstr
      exact hstr.symm)

theorem createUser_hook_error (s : Store) (env : Env) (u : User) (msg : String)
    (h : u.BeforeCreate = .error msg) :
    ∃ e, s.createUser env u = (.error e, s) := by
  unfold Store.createUser
  cases env.dbUp
  · exact ⟨_, rfl⟩
  · simp only [if_true, h]
    exact ⟨_, rfl⟩

theorem user_beforeCreate_error (u : User)
    (h : u.Username = "" ∨ u.Email = "" ∨ u.Name = "") : ∃ msg, u.BeforeCreate = .error msg := by
  unfold User.BeforeCreate
  by_cases h1 : u.Username = ""
  · exact ⟨_, by rw [if_pos h1]⟩
  · by_cases h2 : u.Email = ""
    · exact ⟨_, by rw [if_neg h1, if_pos h2]⟩
    · have h3 : u.Name = "" := by
        rcases h with h | h | h
        · exact absurd h h1
        · exact absurd h h2
        · exact h
      exact ⟨_, by rw [if_neg h1, if_neg h2, if_pos h3]⟩

/-- C12: on every store, a register request whose input lacks `username`, `email` or `name`, or
gives one of them as the empty string or as a value that is not a string, gets a response with a
single error and no data, and the store is left as it was: no user is persisted. -/
theorem register_missing_field (s : Store) (env : Env) (query : String) (vars input : Vars)
    (hq : route query = .register)
    (hin : vars "input" = some (.map input))
    (hmiss : (∀ str, input "username" = some (.str str) → str = "") ∨
      (∀ str, input "email" = some (.str str) → str = "") ∨
      (∀ str, input "name" = some (.str str) → str = "")) :
    (executeQuery s env query vars).1.Data = none ∧
    (∃ e, (executeQuery s env query vars).1.Errors = [e]) ∧
    (executeQuery s env query vars).2 = s := by
  have hroute : executeQuery s env query vars = handleRegisterMutation s env vars := by
    rw [executeQuery_eq_call, hq]; rfl
  have hfield : getString input "username" = "" ∨ getString input "email" = "" ∨
      getString input "name" = "" := by
    rcases hmiss with h | h | h
    · exact Or.inl (getString_eq_empty _ _ h)
    · exact Or.inr (Or.inl (getString_eq_empty _ _ h))
    · exact Or.inr (Or.inr (getString_eq_empty _ _ h))
  obtain ⟨msg, hmsg⟩ := user_beforeCreate_error
    { Username := getString input "username", Email := getString input "email",
      Password := getString input "password", Name := getString input "name",
      Bio := getString input "bio" } hfield
  obtain ⟨e, he⟩ := createUser_hook_error s env _ msg hmsg
  have herr : handleRegisterMutation s env vars
      = (errorResponse ("Failed to create user: " ++ e.Error), s) := by
    unfold handleRegisterMutation
    rw [hin]
    dsimp only
    rw [he]
  rw [hroute, herr]
  exact ⟨rfl, ⟨_, rfl⟩, rfl⟩

/-- Witness for C12: a register request without a name, on the empty store. -/
theorem register_missing_field_witness :
    (executeQuery Store.empty {} sampleRegisterQuery sampleNoNameVars).1.Data = none ∧
    (∃ e, (executeQuery Store.empty {} sampleRegisterQuery sampleNoNameVars).1.Errors = [e]) ∧
    (executeQuery Store.empty {} sampleRegisterQuery sampleNoNameVars).2 = Store.empty :=
  register_missing_field Store.empty {} sampleRegisterQuery sampleNoNameVars _
    (by decide) rfl (Or.inr (Or.inr (fun str h => by simp at h)))

/-! ### Acting-user resolution -/

theorem defaultUserRecord_beforeCreate : defaultUserRecord.BeforeCreate = .ok () := by
  unfold User.BeforeCreate
  rw [if_neg (by decide), if_neg (by decide), if_neg (by decide)]

theorem ensureDefaultUser_unfold (s : Store) (env : Env) :
    ensureDefaultUser s env =
      match s.firstUser env defaultUserID with
      | .ok user => (.ok user, s)
      | .error _ =>
        match s.createUser env defaultUserRecord with
        | (.ok user, s1) => (.ok user, s1)
        | (.error createErr, s1) =>
          (.error ("デフォルトユーザーの作成に失敗: " ++ createErr.Error), s1) := rfl

theorem ensureDefaultUser_found (s : Store) (env : Env) (u : User)
    (h : s.firstUser env defaultUserID = .ok u) : ensureDefaultUser s env = (.ok u, s) := by
  rw [ensureDefaultUser_unfold, h]

theorem createUser_shape (s : Store) (env : Env) (u : User) :
    (∃ e, s.createUser env u = (.error e, s)) ∨
    (∃ e, s.createUser env u = (.error e, { s with nextUserID := s.nextUserID + 1 })) ∨
    (env.dbUp = true ∧ u.BeforeCreate = .ok () ∧
      (s.users.any fun r => r.Username == u.Username) = false ∧
      (s.users.any fun r => r.Email == u.Email) = false ∧
      s.createUser env u =
        (.ok { u with ID := s.nextUserID, CreatedAt := env.now, UpdatedAt := env.now },
          { s with
            users := s.users ++
              [{ u with ID := s.nextUserID, CreatedAt := env.now, UpdatedAt := env.now }],
            nextUserID := s.nextUserID + 1 })) := by
  cases hup : env.dbUp with
  | false => exact Or.inl ⟨.connection, by simp [Store.createUser, hup]⟩
  | true =>
    cases hb : u.BeforeCreate with
    | error msg => exact Or.inl ⟨.hook msg, by simp [Store.createUser, hup, hb]⟩
    | ok v =>
      cases h1 : (s.users.any fun r => r.Username == u.Username) with
      | true =>
        exact Or.inr (Or.inl ⟨_, by simp only [Store.createUser, hup, hb, h1, if_true]; rfl⟩)
      | false =>
        cases h2 : (s.users.any fun r => r.Email == u.Email) with
        | true =>
          exact Or.inr (Or.inl ⟨_, by
            simp only [Store.createUser, hup, hb, h1, h2, if_true, if_false]; rfl⟩)
        | false =>
          exact Or.inr (Or.inr ⟨rfl, rfl, rfl, rfl, by
            simp only [Store.createUser, hup, hb, h1, h2, if_true, if_false]; rfl⟩)

/-- What a resolution does to the store: nothing, or one sequence value spent on a rejected
insert, or the default user appended. -/
theorem ensureDefaultUser_shape (s : Store) (env : Env) :
    (∃ u, s.firstUser env defaultUserID = .ok u ∧ ensureDefaultUser s env = (.ok u, s)) ∨
    ((∃ e, s.firstUser env defaultUserID = .error e) ∧
      ((∃ msg, ensureDefaultUser s env = (.error msg, s)) ∨
       (∃ msg, ensureDefaultUser s env
          = (.error msg, { s with nextUserID := s.nextUserID + 1 })) ∨
       (env.dbUp = true ∧
        (s.users.any fun r => r.Username == defaultUserRecord.Username) = false ∧
        (s.users.any fun r => r.Email == defaultUserRecord.Email) = false ∧
        ensureDefaultUser s env =
          (.ok { defaultUserRecord with
                  ID := s.nextUserID, CreatedAt := env.now, UpdatedAt := env.now },
            { s with
              users := s.users ++
                [{ defaultUserRecord with
                    ID := s.nextUserID, CreatedAt := env.now, UpdatedAt := env.now }],
              nextUserID := s.nextUserID + 1 })))) := by
  rw [ensureDefaultUser_unfold]
  cases hf : s.firstUser env defaultUserID with
  | ok u => exact Or.inl ⟨u, rfl, rfl⟩
  | error e =>
    refine Or.inr ⟨⟨e, rfl⟩, ?_⟩
    rcases createUser_shape s env defaultUserRecord with
      ⟨e1, h1⟩ | ⟨e1, h1⟩ | ⟨hup, _, hu, hm, h1⟩
    · exact Or.inl ⟨_, by simp only [h1]; rfl⟩
    · exact Or.inr (Or.inl ⟨_, by simp only [h1]; rfl⟩)
    · exact Or.inr (Or.inr ⟨hup, hu, hm, by simp only [h1]⟩)

theorem ensureDefaultUser_frame (s : Store) (env : Env) :
    (ensureDefaultUser s env).2.posts = s.posts ∧
    (ensureDefaultUser s env).2.likes = s.likes ∧
    (ensureDefaultUser s env).2.follows = s.follows ∧
    ((∃ u, s.firstUser env defaultUserID = .ok u) → (ensureDefaultUser s env).2 = s) ∧
    ((ensureDefaultUser s env).2.users = s.users ∨
      ∃ u, u.Username = "default_user" ∧ (ensureDefaultUser s env).1 = .ok u ∧
        (ensureDefaultUser s env).2.users = s.users ++ [u]) := by
  rcases ensureDefaultUser_shape s env with
    ⟨u, hf, h⟩ | ⟨⟨e, hf⟩, ⟨msg, h⟩ | ⟨msg, h⟩ | ⟨_, _, _, h⟩⟩
  · rw [h]
    exact ⟨rfl, rfl, rfl, fun _ => rfl, Or.inl rfl⟩
  · rw [h]
    exact ⟨rfl, rfl, rfl, fun _ => rfl, Or.inl rfl⟩
  · rw [h]
    refine ⟨rfl, rfl, rfl, ?_, Or.inl rfl⟩
    rintro ⟨u, hu⟩
    rw [hf] at hu
    cases hu
  · rw [h]
    refine ⟨rfl, rfl, rfl, ?_, Or.inr ⟨_, rfl, rfl, rfl⟩⟩
    rintro ⟨u, hu⟩
    rw [hf] at hu
    cases hu

/-! ### Rejections that come after the resolution of the acting user -/

theorem createPost_hook_error (s : Store) (env : Env) (p : Post)
    (h : TrimSpace p.Content = "") : ∃ e, s.createPost env p = (.error e, s) := by
  unfold Store.createPost Post.BeforeCreate
  cases env.dbUp
  · exact ⟨_, rfl⟩
  · simp only [if_true, if_pos h]
    exact ⟨_, rfl⟩

theorem handleCreatePostMutation_blank (s : Store) (env : Env) (vars input : Vars)
    (content : String) (hin : vars "input" = some (.map input))
    (hc : input "content" = some (.str content)) (hne : content ≠ "")
    (hws : ∀ c ∈ content.data, isSpace c = true) :
    ∃ msg, handleCreatePostMutation s env vars
      = (errorResponse msg, (ensureDefaultUser s env).2) := by
  unfold handleCreatePostMutation
  rw [hin]
  dsimp only
  rw [getString_str _ _ _ hc, if_neg hne]
  rcases hr : ensureDefaultUser s env with ⟨r, s1⟩
  cases r with
  | error err => exact ⟨_, rfl⟩
  | ok user =>
    dsimp only
    obtain ⟨e, he⟩ := createPost_hook_error s1 env { Content := content, AuthorID := user.ID }
      ((trimSpace_eq_empty_iff content).2 hws)
    rw [he]
    exact ⟨_, rfl⟩

/-- Counterexample to C20 as stated: on the empty store a create-post request with content " "
is rejected with one error, yet the store is not what it was: the default user has been
written. -/
theorem createPost_blank_content_writes :
    (executeQuery Store.empty {} sampleCreatePostQuery (sampleCreatePostVars " ")).1
      = errorResponse "Failed to create post: content cannot be empty" ∧
    (executeQuery Store.empty {} sampleCreatePostQuery (sampleCreatePostVars " ")).2
      ≠ Store.empty ∧
    ((executeQuery Store.empty {} sampleCreatePostQuery (sampleCreatePostVars " ")).2.users.map
      fun u => u.Username) = ["default_user"] := by
  decide

theorem deleteLikes_none (s : Store) (env : Env) (userID postID : Nat)
    (hup : env.dbUp = true)
    (hno : ∀ l ∈ s.likes, ¬(l.UserID = userID ∧ l.PostID = postID)) :
    s.deleteLikes env userID postID = (.ok 0, s) := by
  have hc : s.likes.countP (fun l => l.UserID == userID && l.PostID == postID) = 0 := by
    rw [List.countP_eq_zero]
    intro l hl
    simpa using hno l hl
  have hf : s.likes.filter (fun l => !(l.UserID == userID && l.PostID == postID)) = s.likes := by
    rw [List.filter_eq_self]
    intro l hl
    have := hno l hl
    simp only [Bool.not_eq_true', Bool.and_eq_false_iff, beq_eq_false_iff_ne, ne_eq]
    by_cases h : l.UserID = userID
    · exact Or.inr (fun h2 => this ⟨h, h2⟩)
    · exact Or.inl h
  simp only [Store.deleteLikes, hup, if_true, hc, hf]

theorem ensureDefaultUser_ok_dbUp (s : Store) (env : Env) (u : User) (s1 : Store)
    (h : ensureDefaultUser s env = (.ok u, s1)) : env.dbUp = true := by
  cases hup : env.dbUp with
  | true => rfl
  | false =>
    have : ∃ msg, ensureDefaultUser s env = (.error msg, s) := by
      simp only [ensureDefaultUser, Store.firstUser, Store.createUser, hup]
      exact ⟨_, rfl⟩
    obtain ⟨msg, hmsg⟩ := this
    rw [hmsg] at h
    cases h

/-- Counterexample to C14 as stated: on the empty store nobody has a like on post 1, and an
unlike-post request for post 1 fails with "Like not found", yet it creates a record: the
default user. -/
theorem unlike_without_like_creates_user :
    Store.empty.likes = [] ∧
    (executeQuery Store.empty {} sampleUnlikeQuery (samplePostIdVars 1)).1
      = errorResponse "Like not found" ∧
    Store.empty.users = [] ∧
    ((executeQuery Store.empty {} sampleUnlikeQuery (samplePostIdVars 1)).2.users.map
      fun u => u.Username) = ["default_user"] := by
  decide

theorem getUint_eq_zero (env : Env) (m : Vars) (key : String)
    (h : m key = none ∨
      ((∀ f, m key ≠ some (.float64 f)) ∧ (∀ i, m key ≠ some (.int i))) ∨
      m key = some (.int 0) ∨
      (∃ neg exp, m key = some (.float64 (.finite neg 0 exp)))) :
    getUint env m key = 0 := by
  unfold getUint
  rcases h with h | ⟨hf, hi⟩ | h | ⟨neg, exp, h⟩
  · rw [h]
  · split
    · next num heq => exact absurd heq (hf num)
    · next num heq => exact absurd heq (hi num)
    · rfl
  · rw [h]; rfl
  · rw [h]
    simp [uintOfFloat64, Float64.trunc]

theorem firstPost_none (s : Store) (env : Env) (id : Nat)
    (h : ∀ p ∈ s.posts, p.ID ≠ id) : ∃ e, s.firstPost env id = .error e := by
  unfold Store.firstPost
  cases env.dbUp
  · exact ⟨_, rfl⟩
  · have hnone : s.posts.find? (fun p => p.ID == id && p.DeletedAt.isNone) = none := by
      rw [List.find?_eq_none]
      intro p hp
      simp [h p hp]
    simp only [if_true, hnone]
    exact ⟨_, rfl⟩

theorem handleLikePostMutation_rejected (s : Store) (env : Env) (vars : Vars)
    (h : ∀ input, vars "input" = some (.map input) →
      getUint env input "postId" = 0 ∨ ∀ p ∈ s.posts, p.ID ≠ getUint env input "postId") :
    ∃ msg s1, handleLikePostMutation s env vars = (errorResponse msg, s1) ∧
      s1.likes = s.likes := by
  unfold handleLikePostMutation
  split
  · next input hin =>
    dsimp only
    by_cases h0 : getUint env input "postId" = 0
    · rw [if_pos h0]
      exact ⟨_, _, rfl, rfl⟩
    · rw [if_neg h0]
      have hnone : ∀ p ∈ s.posts, p.ID ≠ getUint env input "postId" := by
        rcases h input hin with h1 | h1
        · exact absurd h1 h0
        · exact h1
      obtain ⟨hposts, hlikes, _⟩ := ensureDefaultUser_frame s env
      rcases hr : ensureDefaultUser s env with ⟨r, s1⟩
      rw [hr] at hposts hlikes
      cases r with
      | error err => exact ⟨_, _, rfl, hlikes⟩
      | ok user =>
        dsimp only
        obtain ⟨e, he⟩ := firstPost_none s1 env (getUint env input "postId")
          (by rw [hposts]; exact hnone)
        rw [he]
        exact ⟨_, _, rfl, hlikes⟩
  · exact ⟨_, _, rfl, rfl⟩

/-- C19: on every store, a like-post request gets a response with exactly one error and no data,
and the likes table is left as it was, when the variables have no input map, when `postId` is
absent, is not a number or is zero, or when no post with the given id exists. -/
theorem like_rejected (s : Store) (env : Env) (query : String) (vars : Vars)
    (hq : route query = .likePost)
    (hbad : (∀ input, vars "input" ≠ some (.map input)) ∨
      ∃ input, vars "input" = some (.map input) ∧
        (input "postId" = none ∨
         ((∀ f, input "postId" ≠ some (.float64 f)) ∧ (∀ i, input "postId" ≠ some (.int i))) ∨
         input "postId" = some (.int 0) ∨
         (∃ neg exp, input "postId" = some (.float64 (.finite neg 0 exp))) ∨
         (∀ p ∈ s.posts, p.ID ≠ getUint env input "postId"))) :
    (executeQuery s env query vars).1.Data = none ∧
    (∃ e, (executeQuery s env query vars).1.Errors = [e]) ∧
    (executeQuery s env query vars).2.likes = s.likes := by
  have hroute : executeQuery s env query vars = handleLikePostMutation s env vars := by
    rw [executeQuery_eq_call, hq]; rfl
  have hcond : ∀ input, vars "input" = some (.map input) →
      getUint env input "postId" = 0 ∨ ∀ p ∈ s.posts, p.ID ≠ getUint env input "postId" := by
    intro input hin
    rcases hbad with hno | ⟨input1, hin1, hcase⟩
    · exact absurd hin (hno input)
    · have heq : input1 = input := by
        rw [hin1] at hin
        simpa using hin
      subst heq
      rcases hcase with h | h | h | h | h
      · exact Or.inl (getUint_eq_zero env _ _ (Or.inl h))
      · exact Or.inl (getUint_eq_zero env _ _ (Or.inr (Or.inl h)))
      · exact Or.inl (getUint_eq_zero env _ _ (Or.inr (Or.inr (Or.inl h))))
      · exact Or.inl (getUint_eq_zero env _ _ (Or.inr (Or.inr (Or.inr h))))
      · exact Or.inr h
  obtain ⟨msg, s1, hmsg, hlikes⟩ := handleLikePostMutation_rejected s env vars hcond
  rw [hroute, hmsg]
  exact ⟨rfl, ⟨_, rfl⟩, hlikes⟩

/-- Witness for C19: a like-post request for post 7 on a store that has no post. -/
theorem like_rejected_witness :
    (executeQuery sampleStoreAlice {} sampleLikeQuery (samplePostIdVars 7)).1.Data = none ∧
    (∃ e, (executeQuery sampleStoreAlice {} sampleLikeQuery (samplePostIdVars 7)).1.Errors
      = [e]) ∧
    (executeQuery sampleStoreAlice {} sampleLikeQuery (samplePostIdVars 7)).2.likes
      = sampleStoreAlice.likes :=
  like_rejected sampleStoreAlice {} sampleLikeQuery (samplePostIdVars 7) (by decide)
    (Or.inr ⟨_, rfl, Or.inr (Or.inr (Or.inr (Or.inr (by intro p hp; cases hp))))⟩)

theorem ensureDefaultUser_eq (s : Store) (env : Env) (hup : env.dbUp = true) :
    (∀ u, s.liveUser defaultUserID = some u → ensureDefaultUser s env = (.ok u, s)) ∧
    (s.liveUser defaultUserID = none → s.defaultTaken = true →
      ∃ msg, ensureDefaultUser s env = (.error msg, { s with nextUserID := s.nextUserID + 1 })) ∧
    (s.liveUser defaultUserID = none → s.defaultTaken = false →
      ensureDefaultUser s env =
        (.ok (s.defaultUserRow env),
          { s with users := s.users ++ [s.defaultUserRow env],
                   nextUserID := s.nextUserID + 1 })) := by
  refine ⟨fun u hu => ?_, fun hnone htaken => ?_, fun hnone htaken => ?_⟩
  · apply ensureDefaultUser_found
    unfold Store.liveUser at hu
    simp only [Store.firstUser, hup, if_true, hu]
  · have hf : ∃ e, s.firstUser env defaultUserID = .error e := by
      unfold Store.liveUser at hnone
      simp only [Store.firstUser, hup, if_true, hnone]
      exact ⟨_, rfl⟩
    obtain ⟨e, he⟩ := hf
    rw [ensureDefaultUser_unfold, he]
    dsimp only
    unfold Store.defaultTaken at htaken
    cases h1 : (s.users.any fun r => r.Username == defaultUserRecord.Username) with
    | true =>
      simp only [Store.createUser, hup, defaultUserRecord_beforeCreate, h1, if_true]
      exact ⟨_, rfl⟩
    | false =>
      rw [h1, Bool.false_or] at htaken
      simp only [Store.createUser, hup, defaultUserRecord_beforeCreate, h1, htaken, if_true]
      exact ⟨_, rfl⟩
  · have hf : ∃ e, s.firstUser env defaultUserID = .error e := by
      unfold Store.liveUser at hnone
      simp only [Store.firstUser, hup, if_true, hnone]
      exact ⟨_, rfl⟩
    obtain ⟨e, he⟩ := hf
    rw [ensureDefaultUser_unfold, he]
    dsimp only
    unfold Store.defaultTaken at htaken
    rw [Bool.or_eq_false_iff] at htaken
    simp only [Store.createUser, hup, defaultUserRecord_beforeCreate, htaken.1, htaken.2,
      if_true]
    rfl

theorem liveUser_id (s : Store) (id : Nat) (u : User) (h : s.liveUser id = some u) :
    u.ID = id := by
  unfold Store.liveUser at h
  have := List.find?_some h
  simp only [Bool.and_eq_true, beq_iff_eq] at this
  exact this.1

/-- Resolving the acting user again, on a store whose users table is the one the first
resolution left: the same user when the first one has id `defaultUserID`, an error otherwise. -/
theorem ensureDefaultUser_again (s s2 : Store) (env1 env2 : Env)
    (hup1 : env1.dbUp = true) (hup2 : env2.dbUp = true)
    (husers : s2.users = (ensureDefaultUser s env1).2.users) :
    (∀ u, (ensureDefaultUser s env1).1 = .ok u → u.ID = defaultUserID →
      ensureDefaultUser s2 env2 = (.ok u, s2)) ∧
    (∀ u, (ensureDefaultUser s env1).1 = .ok u → u.ID ≠ defaultUserID →
      ∃ msg, ensureDefaultUser s2 env2
        = (.error msg, { s2 with nextUserID := s2.nextUserID + 1 })) ∧
    (∀ err, (ensureDefaultUser s env1).1 = .error err →
      ∃ msg, ensureDefaultUser s2 env2
        = (.error msg, { s2 with nextUserID := s2.nextUserID + 1 })) := by
  obtain ⟨hfound, herr, hnew⟩ := ensureDefaultUser_eq s env1 hup1
  obtain ⟨hfound2, herr2, _⟩ := ensureDefaultUser_eq s2 env2 hup2
  cases hl : s.liveUser defaultUserID with
  | some u0 =>
    have h0 := hfound u0 hl
    rw [h0] at husers
    have hl2 : s2.liveUser defaultUserID = some u0 := by
      unfold Store.liveUser at hl ⊢
      rw [husers]; exact hl
    rw [h0]
    refine ⟨fun u hu _ => ?_, fun u hu hne => ?_, fun err he => ?_⟩
    · cases hu; exact hfound2 u0 hl2
    · cases hu; exact absurd (liveUser_id s _ _ hl) hne
    · cases he
  | none =>
    cases ht : s.defaultTaken with
    | true =>
      obtain ⟨msg, h0⟩ := herr hl ht
      rw [h0] at husers
      have hl2 : s2.liveUser defaultUserID = none := by
        unfold Store.liveUser at hl ⊢
        rw [husers]; exact hl
      have ht2 : s2.defaultTaken = true := by
        unfold Store.defaultTaken at ht ⊢
        rw [husers]; exact ht
      rw [h0]
      refine ⟨fun u hu _ => ?_, fun u hu hne => ?_, fun err he => herr2 hl2 ht2⟩
      · cases hu
      · cases hu
    | false =>
      have h0 := hnew hl ht
      rw [h0] at husers
      rw [h0]
      have hl' : s.users.find? (fun u => u.ID == defaultUserID && u.DeletedAt.isNone) = none :=
        hl
      refine ⟨fun u hu hid => ?_, fun u hu hne => ?_, fun err he => ?_⟩
      · cases hu
        apply hfound2
        unfold Store.liveUser
        rw [husers, List.find?_append, hl']
        have hid' : s.nextUserID = defaultUserID := hid
        simp [Store.defaultUserRow, defaultUserRecord, hid']
      · cases hu
        apply herr2
        · unfold Store.liveUser
          rw [husers, List.find?_append, hl']
          have hne' : s.nextUserID ≠ defaultUserID := hne
          simp [Store.defaultUserRow, defaultUserRecord, hne']
        · unfold Store.defaultTaken
          rw [husers]
          simp [Store.defaultUserRow, defaultUserRecord]
      · cases he

/-! ### Liking and unliking -/

theorem firstPost_some (s : Store) (env : Env) (p : Post) (hup : env.dbUp = true)
    (hp : p ∈ s.posts) (hlive : p.DeletedAt = none) :
    ∃ found, s.firstPost env p.ID = .ok found := by
  unfold Store.firstPost
  have hsome : (s.posts.find? (fun q => q.ID == p.ID && q.DeletedAt.isNone)).isSome = true := by
    rw [List.find?_isSome]
    exact ⟨p, hp, by simp [hlive]⟩
  cases hf : s.posts.find? (fun q => q.ID == p.ID && q.DeletedAt.isNone) with
  | none => rw [hf] at hsome; cases hsome
  | some found =>
    simp only [hup, if_true]
    exact ⟨found.scanned, rfl⟩

theorem like_beforeCreate_ok (l : Like) (h1 : l.UserID ≠ 0) (h2 : l.PostID ≠ 0) :
    l.BeforeCreate = .ok () := by
  unfold Like.BeforeCreate
  rw [if_neg h1, if_neg h2]

/-- The three ways a like-post request for a live post can end. -/
theorem handleLikePostMutation_outcome (s : Store) (env : Env) (vars input : Vars) (p : Post)
    (hup : env.dbUp = true)
    (hin : vars "input" = some (.map input))
    (hid : getUint env input "postId" = p.ID)
    (hp : p ∈ s.posts) (hlive : p.DeletedAt = none) (hpid : p.ID ≠ 0) :
    (∀ err s1, ensureDefaultUser s env = (.error err, s1) →
      handleLikePostMutation s env vars = (errorResponse err, s1)) ∧
    (∀ u s1, ensureDefaultUser s env = (.ok u, s1) → u.ID ≠ 0 →
      (s1.likes.any fun r => r.UserID == u.ID && r.PostID == p.ID) = true →
      ∃ msg, handleLikePostMutation s env vars
        = (errorResponse msg, { s1 with nextLikeID := s1.nextLikeID + 1 })) ∧
    (∀ u s1, ensureDefaultUser s env = (.ok u, s1) → u.ID ≠ 0 →
      (s1.likes.any fun r => r.UserID == u.ID && r.PostID == p.ID) = false →
      ∃ l, handleLikePostMutation s env vars
        = (dataResponse "likePost" (.like l),
            { s1 with
              likes := s1.likes ++
                [{ ID := s1.nextLikeID, UserID := u.ID, PostID := p.ID, CreatedAt := env.now }],
              nextLikeID := s1.nextLikeID + 1 })) := by
  have hstart : handleLikePostMutation s env vars =
      match ensureDefaultUser s env with
      | (.error err, s1) => (errorResponse err, s1)
      | (.ok user, s1) =>
        match s1.firstPost env p.ID with
        | .error _ => (errorResponse "Post not found", s1)
        | .ok _ =>
          match s1.createLike env { UserID := user.ID, PostID := p.ID } with
          | (.error err, s2) => (errorResponse ("Failed to like post: " ++ err.Error), s2)
          | (.ok like, s2) =>
            (dataResponse "likePost"
              (.like (match s2.firstLike env like.ID with
                | .ok found => s2.preloadUserPost found
                | .error _ => like)), s2) := by
    unfold handleLikePostMutation
    rw [hin]
    dsimp only
    rw [hid, if_neg hpid]
  obtain ⟨hposts, _⟩ := ensureDefaultUser_frame s env
  refine ⟨fun err s1 hres => ?_, fun u s1 hres hu hany => ?_, fun u s1 hres hu hany => ?_⟩
  · rw [hstart, hres]
  · rw [hres] at hposts
    obtain ⟨found, hfound⟩ := firstPost_some s1 env p hup (hposts ▸ hp) hlive
    have hb := like_beforeCreate_ok { UserID := u.ID, PostID := p.ID } hu hpid
    rw [hstart, hres]
    dsimp only
    rw [hfound]
    dsimp only
    simp only [Store.createLike, hup, hb, hany, if_true]
    exact ⟨_, rfl⟩
  · rw [hres] at hposts
    obtain ⟨found, hfound⟩ := firstPost_some s1 env p hup (hposts ▸ hp) hlive
    have hb := like_beforeCreate_ok { UserID := u.ID, PostID := p.ID } hu hpid
    rw [hstart, hres]
    dsimp only
    rw [hfound]
    dsimp only
    simp only [Store.createLike, hup, hb, hany, if_true]
    exact ⟨_, rfl⟩

theorem ensureDefaultUser_ok_id (s s1 : Store) (env : Env) (u : User)
    (hseq : s.nextUserID ≠ 0) (h : ensureDefaultUser s env = (.ok u, s1)) : u.ID ≠ 0 := by
  rcases ensureDefaultUser_shape s env with
    ⟨u0, hf, h0⟩ | ⟨_, ⟨msg, h0⟩ | ⟨msg, h0⟩ | ⟨_, _, _, h0⟩⟩
  · rw [h0] at h
    cases h
    have hid : u.ID = defaultUserID := by
      unfold Store.firstUser at hf
      split at hf
      · split at hf
        · next found hfound =>
          cases hf
          have := List.find?_some hfound
          simp only [Bool.and_eq_true, beq_iff_eq] at this
          exact this.1
        · cases hf
      · cases hf
    rw [hid]; decide
  · rw [h0] at h; cases h
  · rw [h0] at h; cases h
  · rw [h0] at h
    cases h
    exact hseq

theorem countP_eq_one_of_any {α : Type} (l : List α) (f : α → Bool)
    (hany : l.any f = true) (hle : l.countP f ≤ 1) : l.countP f = 1 := by
  have hpos : 0 < l.countP f := by
    rw [List.countP_pos_iff]
    rw [List.any_eq_true] at hany
    exact hany
  omega

theorem countP_eq_zero_of_any {α : Type} (l : List α) (f : α → Bool)
    (hany : l.any f = false) : l.countP f = 0 := by
  rw [List.countP_eq_zero]
  rw [List.any_eq_false] at hany
  intro a ha
  simpa using hany a ha

/-- The double like, on the stores where the first request resolves an acting user: on every
store that holds a live post `p`, with the database answering, the second of two consecutive
like-post requests for `p` gets a single error and leaves the likes table as the first request
left it; and for the acting user `u` that the first request resolves, exactly one like of
`(u, p)` is persisted after the two requests. -/
theorem like_twice_one_like (s : Store) (env1 env2 : Env) (query1 query2 : String)
    (vars1 vars2 input1 input2 : Vars) (p : Post)
    (r1 r2 : GraphQLResponse × Store)
    (hr1 : r1 = executeQuery s env1 query1 vars1)
    (hr2 : r2 = executeQuery r1.2 env2 query2 vars2)
    (hup1 : env1.dbUp = true) (hup2 : env2.dbUp = true)
    (hq1 : route query1 = .likePost) (hq2 : route query2 = .likePost)
    (hin1 : vars1 "input" = some (.map input1)) (hin2 : vars2 "input" = some (.map input2))
    (hid1 : getUint env1 input1 "postId" = p.ID) (hid2 : getUint env2 input2 "postId" = p.ID)
    (hp : p ∈ s.posts) (hlive : p.DeletedAt = none) (hpid : p.ID ≠ 0)
    (hseq : s.nextUserID ≠ 0)
    (huniq : ∀ userID, s.likes.countP (fun l => l.UserID == userID && l.PostID == p.ID) ≤ 1) :
    (r2.1.Data = none ∧ ∃ e, r2.1.Errors = [e]) ∧
    r2.2.likes = r1.2.likes ∧
    (∀ u, (ensureDefaultUser s env1).1 = .ok u →
      r2.2.likes.countP (fun l => l.UserID == u.ID && l.PostID == p.ID) = 1) := by
  have hroute1 : executeQuery s env1 query1 vars1 = handleLikePostMutation s env1 vars1 := by
    rw [executeQuery_eq_call, hq1]; rfl
  have hroute2 : ∀ s', executeQuery s' env2 query2 vars2
      = handleLikePostMutation s' env2 vars2 := by
    intro s'
    rw [executeQuery_eq_call, hq2]; rfl
  rw [hroute1] at hr1
  rw [hroute2] at hr2
  obtain ⟨hposts, hlikes, _⟩ := ensureDefaultUser_frame s env1
  obtain ⟨hfail, hdup, hnew⟩ :=
    handleLikePostMutation_outcome s env1 vars1 input1 p hup1 hin1 hid1 hp hlive hpid
  rcases hres : ensureDefaultUser s env1 with ⟨res, s1⟩
  rw [hres] at hposts hlikes
  -- what the second request does on a store `s2` that keeps the users of `s1`
  have hsecond : ∀ s2 : Store, s2.users = s1.users → s2.posts = s.posts →
      (∀ u, res = .ok u → u.ID ≠ 0 →
        (s2.likes.any fun r => r.UserID == u.ID && r.PostID == p.ID) = true) →
      ∃ msg s3, handleLikePostMutation s2 env2 vars2 = (errorResponse msg, s3) ∧
        s3.likes = s2.likes := by
    intro s2 husers hposts2 hhas
    obtain ⟨hsame, hother, herr⟩ := ensureDefaultUser_again s s2 env1 env2 hup1 hup2
      (by rw [hres]; exact husers)
    rw [hres] at hsame hother herr
    obtain ⟨hfail2, hdup2, _⟩ :=
      handleLikePostMutation_outcome s2 env2 vars2 input2 p hup2 hin2 hid2
        (hposts2 ▸ hp) hlive hpid
    cases res with
    | error err =>
      obtain ⟨msg, hmsg⟩ := herr err rfl
      exact ⟨_, _, hfail2 _ _ hmsg, rfl⟩
    | ok u =>
      have hu0 := ensureDefaultUser_ok_id s s1 env1 u hseq hres
      by_cases hid : u.ID = defaultUserID
      · have hagain := hsame u rfl hid
        obtain ⟨msg, hmsg⟩ := hdup2 u s2 hagain hu0 (hhas u rfl hu0)
        exact ⟨_, _, hmsg, rfl⟩
      · obtain ⟨msg, hmsg⟩ := hother u rfl hid
        exact ⟨_, _, hfail2 _ _ hmsg, rfl⟩
  cases res with
  | error err =>
    have h1 := hfail err s1 hres
    rw [h1] at hr1
    obtain ⟨msg, s3, hmsg, hl3⟩ := hsecond s1 rfl hposts (fun u hu => by cases hu)
    subst hr1
    rw [hmsg] at hr2
    subst hr2
    exact ⟨⟨rfl, _, rfl⟩, hl3, fun u hu => by cases hu⟩
  | ok u =>
    have hu0 := ensureDefaultUser_ok_id s s1 env1 u hseq hres
    cases hany : (s1.likes.any fun r => r.UserID == u.ID && r.PostID == p.ID) with
    | true =>
      obtain ⟨msg1, h1⟩ := hdup u s1 hres hu0 hany
      rw [h1] at hr1
      obtain ⟨msg, s3, hmsg, hl3⟩ :=
        hsecond { s1 with nextLikeID := s1.nextLikeID + 1 } rfl hposts
          (fun u' hu' _ => by cases hu'; exact hany)
      subst hr1
      rw [hmsg] at hr2
      subst hr2
      refine ⟨⟨rfl, _, rfl⟩, hl3, fun u' hu' => ?_⟩
      cases hu'
      show s3.likes.countP _ = 1
      rw [hl3]
      show s1.likes.countP _ = 1
      apply countP_eq_one_of_any _ _ hany
      rw [hlikes]
      exact huniq u.ID
    | false =>
      obtain ⟨l, h1⟩ := hnew u s1 hres hu0 hany
      rw [h1] at hr1
      obtain ⟨msg, s3, hmsg, hl3⟩ :=
        hsecond
          { s1 with
            likes := s1.likes ++
              [{ ID := s1.nextLikeID, UserID := u.ID, PostID := p.ID, CreatedAt := env1.now }],
            nextLikeID := s1.nextLikeID + 1 } rfl hposts
          (fun u' hu' _ => by
            cases hu'
            simp [List.any_append])
      subst hr1
      rw [hmsg] at hr2
      subst hr2
      refine ⟨⟨rfl, _, rfl⟩, hl3, fun u' hu' => ?_⟩
      cases hu'
      show s3.likes.countP _ = 1
      rw [hl3]
      show (s1.likes ++ [_]).countP _ = 1
      rw [List.countP_append, countP_eq_zero_of_any _ _ hany]
      simp

/-- Two like-post requests for post 1 on a store with alice and her post leave one like. -/
theorem like_twice_one_like_witness :
    ((executeQuery (executeQuery sampleStoreAlicePost (sampleEnv 1) sampleLikeQuery
        (samplePostIdVars 1)).2 (sampleEnv 2) sampleLikeQuery (samplePostIdVars 1)).1.Data = none ∧
      ∃ e, (executeQuery (executeQuery sampleStoreAlicePost (sampleEnv 1) sampleLikeQuery
        (samplePostIdVars 1)).2 (sampleEnv 2) sampleLikeQuery (samplePostIdVars 1)).1.Errors
          = [e]) ∧
    (executeQuery (executeQuery sampleStoreAlicePost (sampleEnv 1) sampleLikeQuery
        (samplePostIdVars 1)).2 (sampleEnv 2) sampleLikeQuery
          (samplePostIdVars 1)).2.likes.countP (fun l => l.UserID == 1 && l.PostID == 1) = 1 :=
  have h := like_twice_one_like sampleStoreAlicePost (sampleEnv 1) (sampleEnv 2) sampleLikeQuery
    sampleLikeQuery (samplePostIdVars 1) (samplePostIdVars 1) _ _
    { ID := 1, Content := "hello", AuthorID := 1 } _ _ rfl rfl rfl rfl (by decide) (by decide)
    rfl rfl (by decide) (by decide) (by decide) rfl (by decide) (by decide)
    (fun userID => by simp [sampleStoreAlicePost])
  ⟨h.1, h.2.2 { ID := 1, Username := "alice", Email := "alice@x.com", Name := "Alice" } rfl⟩

theorem handleUnlikePostMutation_outcome (s : Store) (env : Env) (vars input : Vars)
    (postID : Nat) (hup : env.dbUp = true)
    (hin : vars "input" = some (.map input))
    (hid : getUint env input "postId" = postID) (hpid : postID ≠ 0) :
    (∀ err s1, ensureDefaultUser s env = (.error err, s1) →
      handleUnlikePostMutation s env vars = (errorResponse err, s1)) ∧
    (∀ u s1, ensureDefaultUser s env = (.ok u, s1) →
      (s1.likes.any fun l => l.UserID == u.ID && l.PostID == postID) = true →
      handleUnlikePostMutation s env vars
        = (dataResponse "unlikePost" (.bool true),
            { s1 with likes :=
                s1.likes.filter fun l => !(l.UserID == u.ID && l.PostID == postID) })) := by
  have hstart : handleUnlikePostMutation s env vars =
      match ensureDefaultUser s env with
      | (.error err, s1) => (errorResponse err, s1)
      | (.ok user, s1) =>
        match s1.deleteLikes env user.ID postID with
        | (.error err, s2) => (errorResponse ("Failed to unlike post: " ++ err.Error), s2)
        | (.ok rowsAffected, s2) =>
          if rowsAffected = 0 then (errorResponse "Like not found", s2)
          else (dataResponse "unlikePost" (.bool true), s2) := by
    unfold handleUnlikePostMutation
    rw [hin]
    dsimp only
    rw [hid, if_neg hpid]
  refine ⟨fun err s1 hres => ?_, fun u s1 hres hany => ?_⟩
  · rw [hstart, hres]
  · rw [hstart, hres]
    have hpos : s1.likes.countP (fun l => l.UserID == u.ID && l.PostID == postID) ≠ 0 := by
      have : 0 < s1.likes.countP (fun l => l.UserID == u.ID && l.PostID == postID) := by
        rw [List.countP_pos_iff]
        rw [List.any_eq_true] at hany
        exact hany
      omega
    simp only [Store.deleteLikes, hup, if_true, if_neg hpos]

/-- The like / unlike round trip, on the stores where it holds: when the like-post request resolves
an acting user whose id is `defaultUserID` and who has not liked the live post `p`, the request
succeeds, the following unlike-post request returns `true`, and the likes table and `LikeCount`
of `p` are what they were. -/
theorem like_then_unlike (s s1 : Store) (env1 env2 : Env) (query1 query2 : String)
    (vars1 vars2 input1 input2 : Vars) (p : Post) (u : User)
    (r1 r2 : GraphQLResponse × Store)
    (hr1 : r1 = executeQuery s env1 query1 vars1)
    (hr2 : r2 = executeQuery r1.2 env2 query2 vars2)
    (hup1 : env1.dbUp = true) (hup2 : env2.dbUp = true)
    (hq1 : route query1 = .likePost) (hq2 : route query2 = .unlikePost)
    (hin1 : vars1 "input" = some (.map input1)) (hin2 : vars2 "input" = some (.map input2))
    (hid1 : getUint env1 input1 "postId" = p.ID) (hid2 : getUint env2 input2 "postId" = p.ID)
    (hp : p ∈ s.posts) (hlive : p.DeletedAt = none) (hpid : p.ID ≠ 0)
    (hres : ensureDefaultUser s env1 = (.ok u, s1)) (huid : u.ID = defaultUserID)
    (hno : ∀ l ∈ s.likes, ¬(l.UserID = u.ID ∧ l.PostID = p.ID)) :
    (∃ l, r1.1 = dataResponse "likePost" (.like l)) ∧
    r2.1 = dataResponse "unlikePost" (.bool true) ∧
    r2.2.likes = s.likes ∧
    p.LikeCount r2.2 env2 = p.LikeCount s env2 := by
  have hroute1 : executeQuery s env1 query1 vars1 = handleLikePostMutation s env1 vars1 := by
    rw [executeQuery_eq_call, hq1]; rfl
  have hroute2 : ∀ s', executeQuery s' env2 query2 vars2
      = handleUnlikePostMutation s' env2 vars2 := by
    intro s'
    rw [executeQuery_eq_call, hq2]; rfl
  rw [hroute1] at hr1
  rw [hroute2] at hr2
  obtain ⟨_, hlikes, _⟩ := ensureDefaultUser_frame s env1
  rw [hres] at hlikes
  have hu0 : u.ID ≠ 0 := by rw [huid]; decide
  have hany : (s1.likes.any fun r => r.UserID == u.ID && r.PostID == p.ID) = false := by
    rw [List.any_eq_false]
    intro l hl
    have := hno l (hlikes ▸ hl)
    simpa using this
  obtain ⟨_, _, hnew⟩ :=
    handleLikePostMutation_outcome s env1 vars1 input1 p hup1 hin1 hid1 hp hlive hpid
  obtain ⟨l, h1⟩ := hnew u s1 hres hu0 hany
  rw [h1] at hr1
  subst hr1
  obtain ⟨hsame, _, _⟩ := ensureDefaultUser_again s
    { s1 with
      likes := s1.likes ++
        [{ ID := s1.nextLikeID, UserID := u.ID, PostID := p.ID, CreatedAt := env1.now }],
      nextLikeID := s1.nextLikeID + 1 } env1 env2 hup1 hup2 (by rw [hres])
  have hagain := hsame u (by rw [hres]) huid
  obtain ⟨_, hdel⟩ := handleUnlikePostMutation_outcome
    { s1 with
      likes := s1.likes ++
        [{ ID := s1.nextLikeID, UserID := u.ID, PostID := p.ID, CreatedAt := env1.now }],
      nextLikeID := s1.nextLikeID + 1 } env2 vars2 input2 p.ID hup2 hin2 hid2 hpid
  have h2 := hdel u _ hagain (by simp [List.any_append])
  rw [h2] at hr2
  subst hr2
  have hfilter : (s1.likes ++
      [({ ID := s1.nextLikeID, UserID := u.ID, PostID := p.ID, CreatedAt := env1.now } : Like)]
        ).filter (fun l => !(l.UserID == u.ID && l.PostID == p.ID)) = s.likes := by
    rw [List.filter_append, hlikes]
    have hself : s.likes.filter (fun l => !(l.UserID == u.ID && l.PostID == p.ID)) = s.likes := by
      rw [List.filter_eq_self]
      intro l hl
      have := hno l hl
      simp only [Bool.not_eq_true', Bool.and_eq_false_iff, beq_eq_false_iff_ne, ne_eq]
      by_cases h : l.UserID = u.ID
      · exact Or.inr (fun h2 => this ⟨h, h2⟩)
      · exact Or.inl h
    rw [hself]
    simp
  refine ⟨⟨l, rfl⟩, rfl, hfilter, ?_⟩
  unfold Post.LikeCount
  show (if env2.dbUp = true then ((List.countP _ (List.filter _ _) : Nat) : Int) else 0) = _
  rw [hfilter]

/-- C15, evaluated at a store where it fails: user 1 is soft-deleted, nobody has liked post 1.  The
like-post request succeeds with a newly created default user, whose id is 2; the unlike-post
request that follows looks for user 1 again, tries to create the default user a second time and
fails on the unique index; the like stays, and `LikeCount` of the post, 0 before, is 1. -/
theorem like_then_unlike_without_user_one :
    sampleStoreDeletedAlice.likes = [] ∧
    (executeQuery sampleStoreDeletedAlice (sampleEnv 1) sampleLikeQuery
      (samplePostIdVars 1)).1.Errors = [] ∧
    (executeQuery
      (executeQuery sampleStoreDeletedAlice (sampleEnv 1) sampleLikeQuery (samplePostIdVars 1)).2
      (sampleEnv 2) sampleUnlikeQuery (samplePostIdVars 1)).1.Data = none ∧
    ((executeQuery
      (executeQuery sampleStoreDeletedAlice (sampleEnv 1) sampleLikeQuery (samplePostIdVars 1)).2
      (sampleEnv 2) sampleUnlikeQuery (samplePostIdVars 1)).2.likes.map
        fun l => (l.UserID, l.PostID)) = [(2, 1)] ∧
    ({ ID := 1 } : Post).LikeCount sampleStoreDeletedAlice (sampleEnv 2) = 0 ∧
    ({ ID := 1 } : Post).LikeCount
      (executeQuery
        (executeQuery sampleStoreDeletedAlice (sampleEnv 1) sampleLikeQuery
          (samplePostIdVars 1)).2
        (sampleEnv 2) sampleUnlikeQuery (samplePostIdVars 1)).2 (sampleEnv 2) = 1 := by
  decide

/-! ### Derived counts -/

theorem countP_insert_one {α : Type} (f : α → Bool) (l1 l2 : List α) (a : α)
    (ha : f a = true) :
    (l1 ++ a :: l2).countP f = (l1 ++ l2).countP f + 1 := by
  simp only [List.countP_append, List.countP_cons, ha, if_true]
  omega

theorem countP_insert_other {α : Type} (f : α → Bool) (l1 l2 : List α) (a : α)
    (ha : f a = false) :
    (l1 ++ a :: l2).countP f = (l1 ++ l2).countP f := by
  simp [List.countP_append, List.countP_cons, ha]

/-- C16: with the database answering, `FollowerCount`, `FollowingCount`, `LikeCount` and
`ReplyCount` are the numbers of follows with the user as followee, of follows with the user as
follower, of likes on the post and of (not soft-deleted) posts whose parent is the post, and
`IsLikedByUser` holds exactly when a like of the post by the user is stored.  Each count is 0
when no related record is stored, and a store with one more related record, wherever it is in
the table, has a count greater by exactly 1: creating the record adds 1, removing it (for a
reply, soft-deleting it too) takes 1 away. -/
theorem derived_counts (s : Store) (env : Env) (u : User) (p : Post) (x : Nat)
    (hup : env.dbUp = true) :
    -- the counts
    (u.FollowerCount s env = ((s.follows.filter fun f => f.FolloweeID = u.ID).length : Int) ∧
     u.FollowingCount s env = ((s.follows.filter fun f => f.FollowerID = u.ID).length : Int) ∧
     p.LikeCount s env = ((s.likes.filter fun l => l.PostID = p.ID).length : Int) ∧
     p.ReplyCount s env =
       ((s.posts.filter fun q => q.ParentID = some p.ID ∧ q.DeletedAt = none).length : Int) ∧
     (p.IsLikedByUser s env x = true ↔ ∃ l ∈ s.likes, l.PostID = p.ID ∧ l.UserID = x)) ∧
    -- zero without related records
    (((∀ f ∈ s.follows, f.FolloweeID ≠ u.ID) → u.FollowerCount s env = 0) ∧
     ((∀ f ∈ s.follows, f.FollowerID ≠ u.ID) → u.FollowingCount s env = 0) ∧
     ((∀ l ∈ s.likes, l.PostID ≠ p.ID) → p.LikeCount s env = 0) ∧
     ((∀ q ∈ s.posts, q.ParentID ≠ some p.ID) → p.ReplyCount s env = 0)) ∧
    -- one related record more or less
    ((∀ (l1 l2 : List Follow) (f : Follow), f.FolloweeID = u.ID →
        u.FollowerCount { s with follows := l1 ++ f :: l2 } env
          = u.FollowerCount { s with follows := l1 ++ l2 } env + 1) ∧
     (∀ (l1 l2 : List Follow) (f : Follow), f.FollowerID = u.ID →
        u.FollowingCount { s with follows := l1 ++ f :: l2 } env
          = u.FollowingCount { s with follows := l1 ++ l2 } env + 1) ∧
     (∀ (l1 l2 : List Like) (l : Like), l.PostID = p.ID →
        p.LikeCount { s with likes := l1 ++ l :: l2 } env
          = p.LikeCount { s with likes := l1 ++ l2 } env + 1) ∧
     (∀ (l1 l2 : List Post) (q : Post) (t : Time),
        q.ParentID = some p.ID → q.DeletedAt = none →
        p.ReplyCount { s with posts := l1 ++ q :: l2 } env
            = p.ReplyCount { s with posts := l1 ++ l2 } env + 1 ∧
        p.ReplyCount { s with posts := l1 ++ q :: l2 } env
            = p.ReplyCount { s with posts := l1 ++ { q with DeletedAt := some t } :: l2 } env
              + 1)) := by
  refine ⟨⟨?_, ?_, ?_, ?_, ?_⟩, ⟨?_, ?_, ?_, ?_⟩, ⟨?_, ?_, ?_, ?_⟩⟩
  · simp only [User.FollowerCount, hup, if_true, List.countP_eq_length_filter]
    congr 2
  · simp only [User.FollowingCount, hup, if_true, List.countP_eq_length_filter]
    congr 2
  · simp only [Post.LikeCount, hup, if_true, List.countP_eq_length_filter]
    congr 2
  · simp only [Post.ReplyCount, hup, if_true, List.countP_eq_length_filter]
    congr 2
    apply List.filter_congr
    intro q _
    by_cases h : q.ParentID = some p.ID <;> cases q.DeletedAt <;> simp [h]
  · simp only [Post.IsLikedByUser, hup, if_true, decide_eq_true_eq, gt_iff_lt, Nat.cast_pos,
      List.countP_pos_iff]
    constructor
    · rintro ⟨l, hl, h⟩
      simp only [Bool.and_eq_true, beq_iff_eq] at h
      exact ⟨l, hl, h⟩
    · rintro ⟨l, hl, h⟩
      exact ⟨l, hl, by simpa using h⟩
  · intro h
    simp only [User.FollowerCount, hup, if_true, Nat.cast_eq_zero, List.countP_eq_zero]
    intro f hf
    simpa using h f hf
  · intro h
    simp only [User.FollowingCount, hup, if_true, Nat.cast_eq_zero, List.countP_eq_zero]
    intro f hf
    simpa using h f hf
  · intro h
    simp only [Post.LikeCount, hup, if_true, Nat.cast_eq_zero, List.countP_eq_zero]
    intro l hl
    simpa using h l hl
  · intro h
    simp only [Post.ReplyCount, hup, if_true, Nat.cast_eq_zero, List.countP_eq_zero]
    intro q hq
    simp [h q hq]
  · intro l1 l2 f hf
    simp only [User.FollowerCount, hup, if_true]
    rw [countP_insert_one _ l1 l2 f (by simpa using hf)]
    push_cast
    rfl
  · intro l1 l2 f hf
    simp only [User.FollowingCount, hup, if_true]
    rw [countP_insert_one _ l1 l2 f (by simpa using hf)]
    push_cast
    rfl
  · intro l1 l2 l hl
    simp only [Post.LikeCount, hup, if_true]
    rw [countP_insert_one _ l1 l2 l (by simpa using hl)]
    push_cast
    rfl
  · intro l1 l2 q t hq hlive
    simp only [Post.ReplyCount, hup, if_true]
    rw [countP_insert_one _ l1 l2 q (by simp [hq, hlive]),
      countP_insert_other _ l1 l2 { q with DeletedAt := some t } (by simp)]
    push_cast
    exact ⟨rfl, rfl⟩

/-- Witness for C16: on a store with alice and her post, nobody likes post 1, and a like of
post 1 makes its like count 1. -/
theorem derived_counts_witness :
    ({ ID := 1 } : Post).LikeCount sampleStoreAlicePost {} = 0 ∧
    ({ ID := 1 } : Post).LikeCount
      { sampleStoreAlicePost with likes := [] ++ { ID := 1, UserID := 1, PostID := 1 } :: [] } {}
      = ({ ID := 1 } : Post).LikeCount { sampleStoreAlicePost with likes := [] ++ [] } {} + 1 :=
  have h := derived_counts sampleStoreAlicePost {} {} { ID := 1 } 0 rfl
  ⟨h.2.1.2.2.1 (by intro l hl; cases hl), h.2.2.2.2.1 [] [] { ID := 1, UserID := 1, PostID := 1 } rfl⟩

/-! ### Listing the posts -/

theorem preloadAuthor_spec (s : Store) (q : Post) :
    (∀ u, s.liveUser q.AuthorID = some u → s.preloadAuthor q = { q with Author := u }) ∧
    (s.liveUser q.AuthorID = none → s.preloadAuthor q = q) := by
  unfold Store.preloadAuthor Store.liveUser
  constructor
  · intro u hu
    rw [hu]
  · intro hnone
    rw [hnone]

theorem preloadAuthor_scanned (s : Store) (q : Post) :
    (∀ u, s.liveUser q.AuthorID = some u →
      s.preloadAuthor q.scanned = { q with Author := u }) ∧
    (s.liveUser q.AuthorID = none → s.preloadAuthor q.scanned = { q with Author := {} }) := by
  have h := preloadAuthor_spec s q.scanned
  exact ⟨fun u hu => h.1 u hu, fun hnone => h.2 hnone⟩

/-- C17, as the code has it: with the database answering, the list-posts response holds the
posts that are not soft-deleted, each once, from the newest to the oldest by creation time; each
carries the not soft-deleted user whose id is its author id when there is one, and the empty
(zero-valued) author when there is none. -/
theorem list_posts_newest_first (s : Store) (env : Env) (query : String) (vars : Vars)
    (hup : env.dbUp = true) (hq : route query = .posts) :
    ∃ rows : List Post,
      rows.Perm (s.posts.filter fun q => q.DeletedAt.isNone) ∧
      rows.Sorted (fun a b => a.CreatedAt ≥ b.CreatedAt) ∧
      executeQuery s env query vars
        = (dataResponse "posts" (.posts (rows.map fun q => s.preloadAuthor q.scanned)), s) ∧
      ∀ q ∈ rows,
        (∀ u, s.liveUser q.AuthorID = some u →
          u.ID = q.AuthorID ∧ u.DeletedAt = none ∧ u ∈ s.users ∧
          s.preloadAuthor q.scanned = { q with Author := u }) ∧
        (s.liveUser q.AuthorID = none →
          s.preloadAuthor q.scanned = { q with Author := {} }) := by
  have hroute : executeQuery s env query vars = handlePostsQuery s env := by
    rw [executeQuery_eq_call, hq]; rfl
  haveI : IsTotal Post (fun a b => a.CreatedAt ≥ b.CreatedAt) :=
    ⟨fun a b => Nat.le_total b.CreatedAt a.CreatedAt⟩
  haveI : IsTrans Post (fun a b => a.CreatedAt ≥ b.CreatedAt) :=
    ⟨fun a b c hab hbc => Nat.le_trans hbc hab⟩
  refine ⟨(s.posts.filter fun q => q.DeletedAt.isNone).insertionSort
    (fun a b => a.CreatedAt ≥ b.CreatedAt), List.perm_insertionSort _ _,
    List.sorted_insertionSort _ _, ?_,
    fun q _ => ⟨fun u hu => ?_, (preloadAuthor_scanned s q).2⟩⟩
  · rw [hroute]
    simp only [handlePostsQuery, Store.findPostsNewestFirst, hup, if_true]
  · refine ⟨liveUser_id s _ _ hu, ?_, ?_, (preloadAuthor_scanned s q).1 u hu⟩
    · have := List.find?_some hu
      simp only [Bool.and_eq_true, beq_iff_eq, Option.isNone_iff_eq_none] at this
      exact this.2
    · exact List.mem_of_find?_eq_some hu

/-- Witness for C17 as the code has it: list-posts on a store whose post row carries a stale author
while its author, user 1, is soft-deleted: the post comes back with the empty author. -/
theorem list_posts_newest_first_witness :
    (∃ rows : List Post,
      rows.Perm (sampleStoreStaleAuthor.posts.filter fun q => q.DeletedAt.isNone) ∧
      rows.Sorted (fun a b => a.CreatedAt ≥ b.CreatedAt) ∧
      executeQuery sampleStoreStaleAuthor {} samplePostsQuery (fun _ => none)
        = (dataResponse "posts"
            (.posts (rows.map fun q => sampleStoreStaleAuthor.preloadAuthor q.scanned)),
            sampleStoreStaleAuthor)) ∧
    (executeQuery sampleStoreStaleAuthor {} samplePostsQuery (fun _ => none)).1
      = dataResponse "posts" (.posts [{ ID := 1, Content := "hello", AuthorID := 1 }]) :=
  ⟨(list_posts_newest_first sampleStoreStaleAuthor {} samplePostsQuery (fun _ => none) rfl
    (by decide)).elim fun rows h => ⟨rows, h.1, h.2.1, h.2.2.1⟩, by decide⟩

/-- Counterexample to C17 as stated: the author of the stored post, user 1, is soft-deleted;
list-posts returns the post, and the author it carries is the empty record, with id 0, not the
user whose id is the post's author id. -/
theorem list_posts_deleted_author :
    (sampleStoreDeletedAlice.users.map fun u => u.ID) = [1] ∧
    ∃ q : Post,
      (executeQuery sampleStoreDeletedAlice {} samplePostsQuery (fun _ => none)).1
        = dataResponse "posts" (.posts [q]) ∧
      q.AuthorID = 1 ∧ q.Author.ID = 0 ∧ q.Author.Username = "" :=
  ⟨by decide, { ID := 1, Content := "hello", AuthorID := 1 }, by decide, rfl, rfl, rfl⟩

/-! ### The token -/

theorem digitChar_value (n : Nat) (h : n < 10) : (Nat.digitChar n).toNat - 48 = n := by
  interval_cases n <;> rfl

theorem foldl_toDigitsCore (fuel n : Nat) (ds : List Char) (h : n < fuel) :
    (Nat.toDigitsCore 10 fuel n ds).foldl (fun acc c => 10 * acc + (c.toNat - 48)) 0
      = ds.foldl (fun acc c => 10 * acc + (c.toNat - 48)) n := by
  induction fuel generalizing n ds with
  | zero => omega
  | succ fuel ih =>
    unfold Nat.toDigitsCore
    have hd := digitChar_value (n % 10) (Nat.mod_lt _ (by decide))
    by_cases h0 : n / 10 = 0
    · simp only [h0, if_true, List.foldl_cons, Nat.mul_zero, Nat.zero_add, hd]
      congr 1
      omega
    · simp only [h0, if_false]
      rw [ih (n / 10) _ (by omega)]
      simp only [List.foldl_cons, hd]
      congr 1
      omega

theorem decimalValue_repr (n : Nat) : decimalValue (Nat.repr n).data = n := by
  unfold decimalValue Nat.repr Nat.toDigits
  show (Nat.toDigitsCore 10 (n + 1) n []).foldl _ 0 = n
  rw [foldl_toDigitsCore _ _ _ (Nat.lt_succ_self n)]
  rfl

theorem toString_nat_injective (a b : Nat) (h : toString a = toString b) : a = b := by
  have h1 : Nat.repr a = Nat.repr b := h
  have := congrArg (fun str : String => decimalValue str.data) h1
  simpa [decimalValue_repr] using this

theorem itoa_intOfUint (n : Nat) (h : n < 2 ^ 63) : Itoa (intOfUint n) = toString n := by
  unfold Itoa intOfUint
  have h1 : n % 2 ^ 64 = n := Nat.mod_eq_of_lt (by omega)
  rw [h1, if_pos h]
  rfl

theorem string_append_left_cancel (a b c : String) (h : a ++ b = a ++ c) : b = c := by
  have h1 : (a ++ b).data = (a ++ c).data := congrArg String.data h
  simp only [String.data_append, List.append_cancel_left_eq] at h1
  exact String.ext h1

theorem handleRegisterMutation_ok (s : Store) (env : Env) (vars : Vars) (token : String)
    (user : User)
    (h : (handleRegisterMutation s env vars).1 = dataResponse "register" (.register token user)) :
    token = "temp_token_" ++ Itoa (intOfUint user.ID) ∧ user.ID = s.nextUserID ∧
    (handleRegisterMutation s env vars).2.users = s.users ++ [user] := by
  unfold handleRegisterMutation at h ⊢
  split at h
  · next input hin =>
    dsimp only at h ⊢
    rcases createUser_shape s env
        { Username := getString input "username", Email := getString input "email",
          Password := getString input "password", Name := getString input "name",
          Bio := getString input "bio" } with
      ⟨e, he⟩ | ⟨e, he⟩ | ⟨_, _, _, _, he⟩
    · rw [he] at h; cases h
    · rw [he] at h; cases h
    · rw [he] at h ⊢
      simp only [dataResponse, GraphQLResponse.mk.injEq, Option.some.injEq, Prod.mk.injEq,
        Payload.register.injEq, true_and, and_true] at h
      obtain ⟨ht, hu⟩ := h
      subst hu
      exact ⟨ht.symm, rfl, rfl⟩
  · cases h

/-- C18: for every successful register request, the user in the response is the row just
written, its id is the next value of the users sequence, and, ids being PostgreSQL `bigint`
values (below 2^63), the token is "temp_token_" followed by the decimal representation of that
id.  The token is a function of the id alone, and two successful requests that create users
with distinct ids return distinct tokens. -/
theorem register_token (s s' : Store) (env env' : Env) (query query' : String)
    (vars vars' : Vars) (token token' : String) (user user' : User)
    (hq : route query = .register) (hq' : route query' = .register)
    (hok : (executeQuery s env query vars).1
      = dataResponse "register" (.register token user))
    (hok' : (executeQuery s' env' query' vars').1
      = dataResponse "register" (.register token' user'))
    (hid : user.ID < 2 ^ 63) (hid' : user'.ID < 2 ^ 63) :
    token = "temp_token_" ++ toString user.ID ∧
    user.ID = s.nextUserID ∧
    (executeQuery s env query vars).2.users = s.users ++ [user] ∧
    (user.ID = user'.ID → token = token') ∧
    (user.ID ≠ user'.ID → token ≠ token') := by
  have hroute : executeQuery s env query vars = handleRegisterMutation s env vars := by
    rw [executeQuery_eq_call, hq]; rfl
  have hroute' : executeQuery s' env' query' vars' = handleRegisterMutation s' env' vars' := by
    rw [executeQuery_eq_call, hq']; rfl
  rw [hroute] at hok ⊢
  rw [hroute'] at hok'
  obtain ⟨ht, hnext, husers⟩ := handleRegisterMutation_ok s env vars token user hok
  obtain ⟨ht', _, _⟩ := handleRegisterMutation_ok s' env' vars' token' user' hok'
  rw [itoa_intOfUint _ hid] at ht
  rw [itoa_intOfUint _ hid'] at ht'
  refine ⟨ht, hnext, husers, fun h => ?_, fun h heq => ?_⟩
  · rw [ht, ht', h]
  · rw [ht, ht'] at heq
    exact h (toString_nat_injective _ _ (string_append_left_cancel _ _ _ heq))

/-- Witness for C18: registering alice on the empty store and bob on the store that results
gives the tokens "temp_token_1" and "temp_token_2". -/
theorem register_token_witness :
    "temp_token_1" = "temp_token_" ++ toString 1 ∧ "temp_token_1" ≠ "temp_token_2" :=
  have h := register_token Store.empty sampleStoreAlice {} {} sampleRegisterQuery
    sampleRegisterQuery (sampleRegisterVars "pw") sampleBobVars "temp_token_1" "temp_token_2"
    { ID := 1, Username := "alice", Email := "alice@x.com", Password := "pw", Name := "Alice" }
    { ID := 2, Username := "bob", Email := "bob@x.com", Name := "Bob" }
    (by decide) (by decide) (by decide) (by decide) (by decide) (by decide)
  ⟨h.1, h.2.2.2.2 (by decide)⟩

/-! ### Substring search -/

/-- C22: `contains` is total (its one recursive call is on the tail of `s`), and on all byte
strings `s` and `substr`, the empty one included, it returns true exactly when `substr` occurs
in `s` as a contiguous run of bytes; in particular the empty string is found in every string,
and the empty string contains only the empty string. -/
theorem contains_iff_substring (s substr : List UInt8) :
    (contains s substr = true ↔ ∃ before after, s = before ++ substr ++ after) ∧
    (contains s substr = false ↔ ∀ before after, s ≠ before ++ substr ++ after) ∧
    contains s [] = true ∧
    (contains [] substr = true ↔ substr = []) := by
  have hiff : ∀ a b : List UInt8,
      contains a b = true ↔ ∃ before after, a = before ++ b ++ after := by
    intro a b
    rw [contains_iff_isInfix]
    constructor
    · rintro ⟨before, after, h⟩
      exact ⟨before, after, h.symm⟩
    · rintro ⟨before, after, h⟩
      exact ⟨before, after, h.symm⟩
  refine ⟨hiff s substr, ?_, ?_, ?_⟩
  · rw [← Bool.not_eq_true, hiff]
    constructor
    · intro h before after heq
      exact h ⟨before, after, heq⟩
    · rintro h ⟨before, after, heq⟩
      exact h before after heq
  · rw [hiff]
    exact ⟨[], s, by simp⟩
  · rw [hiff]
    constructor
    · rintro ⟨before, after, h⟩
      have := congrArg List.length h
      simp only [List.length_nil, List.length_append] at this
      exact List.eq_nil_of_length_eq_zero (by omega)
    · intro h
      exact ⟨[], [], by simp [h]⟩

/-! ### Requests that are not mutations -/

theorem route_of_no_mutation (query : String)
    (h : contains (bytes query) (bytes "mutation") = false) :
    route query = .users ∨ route query = .posts ∨ route query = .notImplemented := by
  simp only [route, executeQueryWith, h]
  generalize contains (bytes query) (bytes "users") = a
  generalize contains (bytes query) (bytes "register") = c
  generalize contains (bytes query) (bytes "createPost") = d
  generalize contains (bytes query) (bytes "posts") = e
  generalize contains (bytes query) (bytes "unlikePost") = f
  generalize contains (bytes query) (bytes "likePost") = g
  cases a <;> cases c <;> cases d <;> cases e <;> cases f <;> cases g <;> decide

theorem handleUsersQuery_store (s : Store) (env : Env) : (handleUsersQuery s env).2 = s := by
  unfold handleUsersQuery
  split <;> rfl

theorem handlePostsQuery_store (s : Store) (env : Env) : (handlePostsQuery s env).2 = s := by
  unfold handlePostsQuery
  split <;> rfl

/-- C23: on every store and with every variable bag, a request whose selector does not contain
"mutation" goes to list-users, to list-posts or to the not-implemented error; it leaves the
store as it was, and its response is the same whatever the variable bag. -/
theorem query_without_mutation (s : Store) (env : Env) (query : String) (vars : Vars)
    (h : contains (bytes query) (bytes "mutation") = false) :
    (route query = .users ∨ route query = .posts ∨ route query = .notImplemented) ∧
    (executeQuery s env query vars).2 = s ∧
    (∀ vars' : Vars, executeQuery s env query vars' = executeQuery s env query vars) := by
  have hroute := route_of_no_mutation query h
  refine ⟨hroute, ?_, fun vars' => ?_⟩
  · rw [executeQuery_eq_call]
    rcases hroute with hr | hr | hr <;> rw [hr]
    · exact handleUsersQuery_store s env
    · exact handlePostsQuery_store s env
    · rfl
  · rw [executeQuery_eq_call, executeQuery_eq_call]
    rcases hroute with hr | hr | hr <;> rw [hr] <;> rfl

/-- Witness for C23: the list-users selector of the integration test, on a store with alice,
with and without variables. -/
theorem query_without_mutation_witness :
    (executeQuery sampleStoreAlice {} sampleUsersQuery (sampleRegisterVars "pw")).2
      = sampleStoreAlice ∧
    executeQuery sampleStoreAlice {} sampleUsersQuery (fun _ => none)
      = executeQuery sampleStoreAlice {} sampleUsersQuery (sampleRegisterVars "pw") :=
  have h := query_without_mutation sampleStoreAlice {} sampleUsersQuery
    (sampleRegisterVars "pw") (by decide)
  ⟨h.2.1, h.2.2 (fun _ => none)⟩

/-! ### One fallback user -/

/-- Where acting-user resolution is stable: with the database answering, a resolution that
yields a user whose id is `defaultUserID` is repeated by the next one, which returns the same
record and leaves the store as it was; and a resolution changes the users table only when no
live user with id `defaultUserID` is stored. -/
theorem ensureDefaultUser_stable (s s1 : Store) (env1 env2 : Env) (u : User)
    (hup2 : env2.dbUp = true)
    (hres : ensureDefaultUser s env1 = (.ok u, s1)) :
    (u.ID = defaultUserID → ensureDefaultUser s1 env2 = (.ok u, s1)) ∧
    (s1.users ≠ s.users → s.liveUser defaultUserID = none) := by
  have hup1 := ensureDefaultUser_ok_dbUp s env1 u s1 hres
  constructor
  · intro hid
    obtain ⟨hsame, _, _⟩ := ensureDefaultUser_again s s1 env1 env2 hup1 hup2 (by rw [hres])
    exact hsame u (by rw [hres]) hid
  · intro hne
    cases hl : s.liveUser defaultUserID with
    | none => rfl
    | some u0 =>
      have h0 := (ensureDefaultUser_eq s env1 hup1).1 u0 hl
      rw [h0] at hres
      cases hres
      exact absurd rfl hne

/-- C21, evaluated at a store where it fails: user 1 is soft-deleted.  The resolution succeeds
by creating the default user, which gets id 2; the resolution that follows immediately does not
succeed: it looks for user 1 again, tries to create the default user once more and is rejected
by the unique index on the username, and the store is not left as it was (a sequence value is
spent). -/
theorem ensureDefaultUser_twice_without_user_one :
    (sampleStoreDeletedAlice.users.map fun u => (u.ID, u.DeletedAt)) = [(1, some 5)] ∧
    ((ensureDefaultUser sampleStoreDeletedAlice (sampleEnv 1)).1.toOption.map
      fun u => (u.ID, u.Username)) = some (2, "default_user") ∧
    ((ensureDefaultUser sampleStoreDeletedAlice (sampleEnv 1)).2.users.map
      fun u => (u.ID, u.Username)) = [(1, "alice"), (2, "default_user")] ∧
    (ensureDefaultUser (ensureDefaultUser sampleStoreDeletedAlice (sampleEnv 1)).2
      (sampleEnv 2)).1.toOption = none ∧
    (ensureDefaultUser (ensureDefaultUser sampleStoreDeletedAlice (sampleEnv 1)).2
      (sampleEnv 2)).2 ≠ (ensureDefaultUser sampleStoreDeletedAlice (sampleEnv 1)).2 := by
  decide

/-! ### What a rejected request leaves in the store -/

theorem ensureDefaultUser_down (s : Store) (env : Env) (hup : env.dbUp = false) :
    ∃ msg, ensureDefaultUser s env = (.error msg, s) := by
  simp only [ensureDefaultUser, Store.firstUser, Store.createUser, hup]
  exact ⟨_, rfl⟩

/-- The store after a resolution of the acting user, case by case. -/
theorem ensureDefaultUser_store (s : Store) (env : Env) :
    (env.dbUp = false → (ensureDefaultUser s env).2 = s) ∧
    (∀ u, s.liveUser defaultUserID = some u → (ensureDefaultUser s env).2 = s) ∧
    (env.dbUp = true → s.liveUser defaultUserID = none → s.defaultTaken = false →
      ensureDefaultUser s env =
        (.ok (s.defaultUserRow env),
          { s with users := s.users ++ [s.defaultUserRow env],
                   nextUserID := s.nextUserID + 1 })) ∧
    (env.dbUp = true → s.liveUser defaultUserID = none → s.defaultTaken = true →
      (ensureDefaultUser s env).2 = { s with nextUserID := s.nextUserID + 1 } ∧
      ∃ msg, (ensureDefaultUser s env).1 = .error msg) := by
  refine ⟨fun hup => ?_, fun u hu => ?_, fun hup hnone ht => ?_, fun hup hnone ht => ?_⟩
  · obtain ⟨msg, h⟩ := ensureDefaultUser_down s env hup
    rw [h]
  · cases hup : env.dbUp with
    | false =>
      obtain ⟨msg, h⟩ := ensureDefaultUser_down s env hup
      rw [h]
    | true => rw [(ensureDefaultUser_eq s env hup).1 u hu]
  · exact (ensureDefaultUser_eq s env hup).2.2 hnone ht
  · obtain ⟨msg, h⟩ := (ensureDefaultUser_eq s env hup).2.1 hnone ht
    rw [h]
    exact ⟨rfl, msg, rfl⟩

/-- C14, as the code has it: when the resolution of the acting user succeeds and the resolved
user has no like on the post id `p` (non-zero), an unlike-post request for `p` fails with the
single error "Like not found" and creates no like, post or follow.  When a live user with id 1
is stored, that user is the acting user and the store is left as it was.  When none is stored,
the resolution has created the acting user: the store differs from the one before by the row of
the default user, named "default_user", appended to the users table, and by the users sequence,
advanced by one. -/
theorem unlike_without_like (s s1 : Store) (env : Env) (query : String) (vars input : Vars)
    (postID : Nat) (u : User)
    (hq : route query = .unlikePost)
    (hin : vars "input" = some (.map input))
    (hid : getUint env input "postId" = postID) (hp : postID ≠ 0)
    (hres : ensureDefaultUser s env = (.ok u, s1))
    (hno : ∀ l ∈ s.likes, ¬(l.UserID = u.ID ∧ l.PostID = postID)) :
    (executeQuery s env query vars).1 = errorResponse "Like not found" ∧
    (executeQuery s env query vars).2.likes = s.likes ∧
    (executeQuery s env query vars).2.posts = s.posts ∧
    (executeQuery s env query vars).2.follows = s.follows ∧
    (∀ u1, s.liveUser defaultUserID = some u1 →
      u = u1 ∧ (executeQuery s env query vars).2 = s) ∧
    (s.liveUser defaultUserID = none →
      u = s.defaultUserRow env ∧ u.Username = "default_user" ∧
      (executeQuery s env query vars).2 =
        { s with users := s.users ++ [s.defaultUserRow env],
                 nextUserID := s.nextUserID + 1 }) := by
  have hroute : executeQuery s env query vars = handleUnlikePostMutation s env vars := by
    rw [executeQuery_eq_call, hq]; rfl
  have hup := ensureDefaultUser_ok_dbUp s env u s1 hres
  obtain ⟨h1, h2, h3, _, _⟩ := ensureDefaultUser_frame s env
  rw [hres] at h1 h2 h3
  have hno1 : ∀ l ∈ s1.likes, ¬(l.UserID = u.ID ∧ l.PostID = postID) := by
    intro l hl
    exact hno l (h2 ▸ hl)
  have hmain : handleUnlikePostMutation s env vars = (errorResponse "Like not found", s1) := by
    unfold handleUnlikePostMutation
    rw [hin]
    dsimp only
    rw [hid, if_neg hp, hres]
    dsimp only
    rw [deleteLikes_none s1 env u.ID postID hup hno1]
    rfl
  obtain ⟨_, hlive, hnew, htaken⟩ := ensureDefaultUser_store s env
  rw [hroute, hmain]
  refine ⟨rfl, h2, h1, h3, fun u1 hu1 => ?_, fun hnone => ?_⟩
  · have h0 := (ensureDefaultUser_eq s env hup).1 u1 hu1
    rw [hres] at h0
    cases h0
    exact ⟨rfl, rfl⟩
  · cases ht : s.defaultTaken with
    | true =>
      obtain ⟨_, msg, hmsg⟩ := htaken hup hnone ht
      rw [hres] at hmsg
      cases hmsg
    | false =>
      have h0 := hnew hup hnone ht
      rw [hres] at h0
      cases h0
      exact ⟨rfl, rfl, rfl⟩

/-- Witness for C14 as the code has it: unliking post 1 fails with "Like not found" on a store
whose user 1 is alice, which is left as it was, and on the empty store, which gains the default
user. -/
theorem unlike_without_like_witness :
    ((executeQuery sampleStoreAlice {} sampleUnlikeQuery (samplePostIdVars 1)).1
        = errorResponse "Like not found" ∧
      (executeQuery sampleStoreAlice {} sampleUnlikeQuery (samplePostIdVars 1)).2
        = sampleStoreAlice) ∧
    ((executeQuery Store.empty {} sampleUnlikeQuery (samplePostIdVars 1)).1
        = errorResponse "Like not found" ∧
      (executeQuery Store.empty {} sampleUnlikeQuery (samplePostIdVars 1)).2
        = { Store.empty with users := [Store.empty.defaultUserRow {}], nextUserID := 2 }) :=
  have h1 := unlike_without_like sampleStoreAlice sampleStoreAlice {} sampleUnlikeQuery
    (samplePostIdVars 1) _ 1 _ (by decide) rfl (by decide) (by decide) rfl
    (by intro l hl; cases hl)
  have h2 := unlike_without_like Store.empty
    { Store.empty with users := [Store.empty.defaultUserRow {}], nextUserID := 2 } {}
    sampleUnlikeQuery (samplePostIdVars 1) _ 1 (Store.empty.defaultUserRow {})
    (by decide) rfl (by decide) (by decide) rfl (by intro l hl; cases hl)
  ⟨⟨h1.1, (h1.2.2.2.2.1 _ rfl).2⟩, ⟨h2.1, (h2.2.2.2.2.2 rfl).2.2⟩⟩

/-- C20, as the code has it: a create-post request whose content is non-empty but made of white
space only is rejected with one error; no post is persisted and likes and follows are untouched.
The store is left as it was when a live user with id 1 is stored, and when the database does
not answer.  Otherwise the resolution of the acting user, which runs before the content is
validated, has written: when no stored user holds the username or the email of the default
user, its row, named "default_user", is appended to the users table and the users sequence
advances by one; when a stored user holds one of them the insert is refused, no row is added to
any table and only the users sequence advances by one. -/
theorem createPost_blank_content (s : Store) (env : Env) (query : String)
    (vars input : Vars) (content : String)
    (hq : route query = .createPost)
    (hin : vars "input" = some (.map input))
    (hc : input "content" = some (.str content)) (hne : content ≠ "")
    (hws : ∀ c ∈ content.data, isSpace c = true) :
    (executeQuery s env query vars).1.Data = none ∧
    (∃ e, (executeQuery s env query vars).1.Errors = [e]) ∧
    (executeQuery s env query vars).2.posts = s.posts ∧
    (executeQuery s env query vars).2.likes = s.likes ∧
    (executeQuery s env query vars).2.follows = s.follows ∧
    (env.dbUp = false → (executeQuery s env query vars).2 = s) ∧
    (∀ u, s.liveUser defaultUserID = some u → (executeQuery s env query vars).2 = s) ∧
    (env.dbUp = true → s.liveUser defaultUserID = none → s.defaultTaken = false →
      (s.defaultUserRow env).Username = "default_user" ∧
      (executeQuery s env query vars).2 =
        { s with users := s.users ++ [s.defaultUserRow env],
                 nextUserID := s.nextUserID + 1 }) ∧
    (env.dbUp = true → s.liveUser defaultUserID = none → s.defaultTaken = true →
      (executeQuery s env query vars).2 = { s with nextUserID := s.nextUserID + 1 }) := by
  have hroute : executeQuery s env query vars = handleCreatePostMutation s env vars := by
    rw [executeQuery_eq_call, hq]; rfl
  obtain ⟨msg, hmsg⟩ := handleCreatePostMutation_blank s env vars input content hin hc hne hws
  obtain ⟨h1, h2, h3, _, _⟩ := ensureDefaultUser_frame s env
  obtain ⟨hdown, hlive, hnew, htaken⟩ := ensureDefaultUser_store s env
  rw [hroute, hmsg]
  refine ⟨rfl, ⟨_, rfl⟩, h1, h2, h3, hdown, hlive, fun hup hnone ht => ⟨rfl, ?_⟩,
    fun hup hnone ht => (htaken hup hnone ht).1⟩
  show (ensureDefaultUser s env).2 = _
  rw [hnew hup hnone ht]

/-- Witness for C20 as the code has it: blank content is rejected on a store whose user 1 is
alice, which is left as it was, and on the empty store, which gains the default user. -/
theorem createPost_blank_content_witness :
    ((executeQuery sampleStoreAlice {} sampleCreatePostQuery (sampleCreatePostVars "  ")).1.Data
        = none ∧
      (executeQuery sampleStoreAlice {} sampleCreatePostQuery (sampleCreatePostVars "  ")).2
        = sampleStoreAlice) ∧
    (executeQuery Store.empty {} sampleCreatePostQuery (sampleCreatePostVars "  ")).2
      = { Store.empty with users := [Store.empty.defaultUserRow {}], nextUserID := 2 } :=
  have h1 := createPost_blank_content sampleStoreAlice {} sampleCreatePostQuery
    (sampleCreatePostVars "  ") _ "  " (by decide) rfl rfl (by decide) (by decide)
  have h2 := createPost_blank_content Store.empty {} sampleCreatePostQuery
    (sampleCreatePostVars "  ") _ "  " (by decide) rfl rfl (by decide) (by decide)
  ⟨⟨h1.1, h1.2.2.2.2.2.2.1 _ rfl⟩, (h2.2.2.2.2.2.2.2.1 rfl rfl rfl).2⟩

/-- C13, evaluated at a store where it fails: user 1 is soft-deleted and the default user, created
by an earlier resolution of the acting user, is stored with id 2.  The store holds the live post 1
and no like.  Each of two consecutive like-post requests for post 1 looks for user 1, does not
find it, tries to create the default user again and fails on the unique index on the username:
the first request gets one error as well as the second, and no like is persisted. -/
theorem like_twice_lost_default_user :
    (ensureDefaultUser sampleStoreDeletedAlice (sampleEnv 1)).2 = sampleStoreLostDefaultUser ∧
    (sampleStoreLostDefaultUser.posts.map fun q => (q.ID, q.DeletedAt)) = [(1, none)] ∧
    sampleStoreLostDefaultUser.likes = [] ∧
    (executeQuery sampleStoreLostDefaultUser (sampleEnv 2) sampleLikeQuery
      (samplePostIdVars 1)).1.Data = none ∧
    (executeQuery sampleStoreLostDefaultUser (sampleEnv 2) sampleLikeQuery
      (samplePostIdVars 1)).1.Errors.length = 1 ∧
    (executeQuery
      (executeQuery sampleStoreLostDefaultUser (sampleEnv 2) sampleLikeQuery
        (samplePostIdVars 1)).2
      (sampleEnv 3) sampleLikeQuery (samplePostIdVars 1)).1.Data = none ∧
    (executeQuery
      (executeQuery sampleStoreLostDefaultUser (sampleEnv 2) sampleLikeQuery
        (samplePostIdVars 1)).2
      (sampleEnv 3) sampleLikeQuery (samplePostIdVars 1)).1.Errors.length = 1 ∧
    (executeQuery
      (executeQuery sampleStoreLostDefaultUser (sampleEnv 2) sampleLikeQuery
        (samplePostIdVars 1)).2
      (sampleEnv 3) sampleLikeQuery (samplePostIdVars 1)).2.likes = [] := by
  decide

end SnsServer
